import Mathlib

/-!
# fyp-backend: user/video relation routes

A shallow embedding of the Express/Mongoose route handlers that maintain the
per-user video collections (`likedVideos`, `dislikedVideos`, `watchLater`), the
`likes` / `dislikes` counters of a video, the user's playlists and the watch
history.

Modelling conventions

* An `ObjectId` is an abstract identifier (a natural number).  A request names
  a document by a string; an `IdString` keeps the id that string casts to and
  whether the string is spelled the way `toString()` prints that id.
  `findById`, `.id()`, `push` and `ObjectId.equals` cast the string and see the
  id only; `arr.includes(str)` and `x.toString() !== str` compare the spelling,
  so they miss an id that the request spells with an upper-case hexadecimal
  digit.  Where a handler tests `includes(video._id)`, an `ObjectId`, the test is
  by value.  Requests whose id string cannot be cast are not modelled.
* The two collections are lists of documents.  `User.findOne({ username })`
  returns the first document with that username, `Video.findById(id)` the first
  document with that `_id`, and `doc.save()` overwrites the stored document that
  carries the same `_id`.
* `likes` and `dislikes` are integers (`Number` in the schema); the handlers'
  `Math.max(0, n - 1)` is kept as written.
* A handler returns the HTTP response together with the resulting database.
  Every `save()` succeeds, except in the section on writes that may fail.
* `String.prototype.toLowerCase` is a parameter of the handlers that call it;
  `toLowerASCII` is its restriction to strings of ASCII characters and is used
  where concrete requests are evaluated.
-/

namespace FypBackend

/-- Identifier of a stored document (`mongoose.Schema.Types.ObjectId`). -/
abbrev ObjectId := Nat

/-- One element of `userSchema.playlists`. -/
structure Playlist where
  _id : ObjectId
  name : String
  videos : List ObjectId
deriving DecidableEq, Repr

/-- One element of `userSchema.history`; `video` is not a required path. -/
structure HistoryEntry where
  video : Option ObjectId
  watchedAt : Nat
deriving DecidableEq, Repr

/-- One element of `videoSchema.comments`. -/
structure Comment where
  _id : ObjectId
  text : String
  user : ObjectId
  username : String
  createdAt : Nat
  isUploader : Bool
deriving DecidableEq, Repr

/-- The document of `models/User.js` (credentials left out). -/
structure User where
  _id : ObjectId
  username : String
  playlists : List Playlist
  likedVideos : List ObjectId
  dislikedVideos : List ObjectId
  watchLater : List ObjectId
  history : List HistoryEntry
deriving DecidableEq, Repr

/-- The document of `models/Video.js` (media fields left out). -/
structure Video where
  _id : ObjectId
  likes : Int
  dislikes : Int
  uploadedBy : Option ObjectId
  views : Int
  comments : List Comment
deriving DecidableEq, Repr

/-- The two collections of the document store. -/
structure DB where
  users : List User
  videos : List Video
deriving DecidableEq, Repr

/-- What a handler sends back: the status code, the `message` / `error` text and
the `count` field when the body has one. -/
structure Response where
  status : Nat
  message : String
  count : Option Nat
deriving DecidableEq, Repr

/-- A response whose body carries only a text. -/
def reply (status : Nat) (message : String) : Response :=
  { status := status, message := message, count := none }

/-- `User.findOne({ username })`. -/
def findOne (users : List User) (username : String) : Option User :=
  users.find? (fun u => u.username == username)

/-- `Video.findById(id)`. -/
def findById (videos : List Video) (id : ObjectId) : Option Video :=
  videos.find? (fun v => v._id == id)

/-- `user.save()`: the stored document with this `_id` is overwritten. -/
def saveUser (db : DB) (user : User) : DB :=
  { db with users := db.users.map (fun x => if x._id == user._id then user else x) }

/-- `video.save()`: the stored document with this `_id` is overwritten. -/
def saveVideo (db : DB) (video : Video) : DB :=
  { db with videos := db.videos.map (fun x => if x._id == video._id then video else x) }

/-- `arr.filter(vId => !vId.equals(id))`. -/
def without (arr : List ObjectId) (id : ObjectId) : List ObjectId :=
  arr.filter (fun vId => !(vId == id))

/-- An id as a request carries it, in a path parameter or a body field: a string
that Mongoose casts to the ObjectId `id`.  `canonical` tells whether the string
is spelled exactly as `ObjectId.prototype.toString()` prints that id, in 24
lower-case hexadecimal digits; the same digits with one in upper case cast to
the same id and are not canonical. -/
structure IdString where
  id : ObjectId
  canonical : Bool
deriving DecidableEq, Repr

/-- `x.toString() === s` for a stored id `x` and a request string `s`. -/
def IdString.isStringOf (s : IdString) (x : ObjectId) : Bool :=
  s.canonical && x == s.id

/-- `arr.includes(s)` on a Mongoose array of ids, for a request string `s`: the
string is compared with the `toString()` of each element. -/
def includes (arr : List ObjectId) (s : IdString) : Bool :=
  arr.any (fun x => s.isStringOf x)

/-- `arr.filter(v => v.toString() !== s)`. -/
def withoutString (arr : List ObjectId) (s : IdString) : List ObjectId :=
  arr.filter (fun v => !(s.isStringOf v))

/-- The id `id` spelled as `toString()` prints it. -/
def lowerHex (id : ObjectId) : IdString :=
  { id := id, canonical := true }

/-- The id `id` spelled with an upper-case hexadecimal digit, as
`00000000000000000000000A` for the id `10`. -/
def upperHex (id : ObjectId) : IdString :=
  { id := id, canonical := false }

/-! ## routes/videos.js -/

namespace videos

/-- `router.post('/videos/:id/like')`. -/
def like (db : DB) (username : String) (id : ObjectId) : Response × DB :=
  match findById db.videos id, findOne db.users username with
  | none, _ => (reply 404 "Video not found", db)
  | some _, none => (reply 404 "User not found", db)
  | some video, some user =>
    let alreadyLiked := user.likedVideos.contains video._id
    if !alreadyLiked then
      let video1 := { video with likes := video.likes + 1 }
      let user1 := { user with likedVideos := user.likedVideos ++ [video1._id] }
      let wasDisliked := user1.dislikedVideos.contains video1._id
      let video2 :=
        if wasDisliked then { video1 with dislikes := max 0 (video1.dislikes - 1) } else video1
      let user2 :=
        if wasDisliked then
          { user1 with dislikedVideos := without user1.dislikedVideos video1._id }
        else user1
      let db1 := saveVideo db video2
      let db2 := saveUser db1 user2
      (reply 200 "Video liked successfully", db2)
    else
      let video1 := { video with likes := max 0 (video.likes - 1) }
      let user1 := { user with likedVideos := without user.likedVideos video1._id }
      let db1 := saveVideo db video1
      let db2 := saveUser db1 user1
      (reply 200 "Video unliked successfully", db2)

/-- `router.post('/videos/:id/dislike')`. -/
def dislike (db : DB) (username : String) (id : ObjectId) : Response × DB :=
  match findById db.videos id, findOne db.users username with
  | none, _ => (reply 404 "Video not found", db)
  | some _, none => (reply 404 "User not found", db)
  | some video, some user =>
    let alreadyDisliked := user.dislikedVideos.contains video._id
    if !alreadyDisliked then
      let video1 := { video with dislikes := video.dislikes + 1 }
      let user1 := { user with dislikedVideos := user.dislikedVideos ++ [video1._id] }
      let wasLiked := user1.likedVideos.contains video1._id
      let video2 :=
        if wasLiked then { video1 with likes := max 0 (video1.likes - 1) } else video1
      let user2 :=
        if wasLiked then
          { user1 with likedVideos := without user1.likedVideos video1._id }
        else user1
      let db1 := saveVideo db video2
      let db2 := saveUser db1 user2
      (reply 200 "Video disliked successfully", db2)
    else
      let video1 := { video with dislikes := max 0 (video.dislikes - 1) }
      let user1 := { user with dislikedVideos := without user.dislikedVideos video1._id }
      let db1 := saveVideo db video1
      let db2 := saveUser db1 user1
      (reply 200 "Video dislike removed successfully", db2)

/-- `router.post('/api/videos/:id/favorite')`. -/
def favorite (db : DB) (username : String) (videoId : IdString) : Response × DB :=
  match findOne db.users username with
  | none => (reply 404 "User not found", db)
  | some user =>
    let user1 :=
      if !includes user.likedVideos videoId then
        { user with likedVideos := user.likedVideos ++ [videoId.id] }
      else user
    (reply 200 "Added to favorites", saveUser db user1)

end videos

/-! ## routes/likedvideos.js -/

namespace likedvideos

/-- `router.post('/')`: add a video to the liked videos.  `videoId` is the body
field, `none` when the request carries none. -/
def add (db : DB) (username : String) (videoId : Option IdString) : Response × DB :=
  match findOne db.users username with
  | none => (reply 404 "User not found", db)
  | some user =>
    match videoId with
    | none => (reply 400 "Video ID is required", db)
    | some videoId =>
      match findById db.videos videoId.id with
      | none => (reply 404 "Video not found", db)
      | some video =>
        if includes user.likedVideos videoId then
          (reply 400 "Video is already in liked videos", db)
        else
          let user1 := { user with likedVideos := user.likedVideos ++ [videoId.id] }
          let wasDisliked := includes user1.dislikedVideos videoId
          let user2 :=
            if wasDisliked then
              { user1 with dislikedVideos := without user1.dislikedVideos videoId.id }
            else user1
          let video1 :=
            if wasDisliked then { video with dislikes := max 0 (video.dislikes - 1) } else video
          let video2 := { video1 with likes := video1.likes + 1 }
          let db1 := saveUser db user2
          let db2 := saveVideo db1 video2
          ({ status := 200, message := "Video added to liked videos successfully",
             count := some user2.likedVideos.length }, db2)

/-- `router.delete('/:videoId')`: remove a video from the liked videos. -/
def remove (db : DB) (username : String) (videoId : IdString) : Response × DB :=
  match findOne db.users username with
  | none => (reply 404 "User not found", db)
  | some user =>
    if !includes user.likedVideos videoId then
      (reply 400 "Video is not in liked videos", db)
    else
      let user1 := { user with likedVideos := without user.likedVideos videoId.id }
      let db1 :=
        match findById db.videos videoId.id with
        | some video => saveVideo db { video with likes := max 0 (video.likes - 1) }
        | none => db
      let db2 := saveUser db1 user1
      ({ status := 200, message := "Video removed from liked videos successfully",
         count := some user1.likedVideos.length }, db2)

/-- `router.delete('/')`: clear all liked videos. -/
def clear (db : DB) (username : String) : Response × DB :=
  match findOne db.users username with
  | none => (reply 404 "User not found", db)
  | some user =>
    let deletedCount := user.likedVideos.length
    let user1 := { user with likedVideos := [] }
    (reply 200 ("All " ++ toString deletedCount ++ " liked videos removed successfully"),
      saveUser db user1)

end likedvideos

/-! ## routes/dislikedvideos.js -/

namespace dislikedvideos

/-- `router.post('/')`: add a video to the disliked videos. -/
def add (db : DB) (username : String) (videoId : Option IdString) : Response × DB :=
  match findOne db.users username with
  | none => (reply 404 "User not found", db)
  | some user =>
    match videoId with
    | none => (reply 400 "Video ID is required", db)
    | some videoId =>
      match findById db.videos videoId.id with
      | none => (reply 404 "Video not found", db)
      | some video =>
        if includes user.dislikedVideos videoId then
          (reply 400 "Video is already in disliked videos", db)
        else
          let user1 := { user with dislikedVideos := user.dislikedVideos ++ [videoId.id] }
          let wasLiked := includes user1.likedVideos videoId
          let user2 :=
            if wasLiked then
              { user1 with likedVideos := without user1.likedVideos videoId.id }
            else user1
          let video1 :=
            if wasLiked then { video with likes := max 0 (video.likes - 1) } else video
          let video2 := { video1 with dislikes := video1.dislikes + 1 }
          let db1 := saveUser db user2
          let db2 := saveVideo db1 video2
          ({ status := 200, message := "Video added to disliked videos successfully",
             count := some user2.dislikedVideos.length }, db2)

/-- `router.delete('/:videoId')`: remove a video from the disliked videos. -/
def remove (db : DB) (username : String) (videoId : IdString) : Response × DB :=
  match findOne db.users username with
  | none => (reply 404 "User not found", db)
  | some user =>
    if !includes user.dislikedVideos videoId then
      (reply 400 "Video is not in disliked videos", db)
    else
      let user1 := { user with dislikedVideos := without user.dislikedVideos videoId.id }
      let db1 :=
        match findById db.videos videoId.id with
        | some video => saveVideo db { video with dislikes := max 0 (video.dislikes - 1) }
        | none => db
      let db2 := saveUser db1 user1
      ({ status := 200, message := "Video removed from disliked videos successfully",
         count := some user1.dislikedVideos.length }, db2)

/-- `router.delete('/')`: clear all disliked videos. -/
def clear (db : DB) (username : String) : Response × DB :=
  match findOne db.users username with
  | none => (reply 404 "User not found", db)
  | some user =>
    let deletedCount := user.dislikedVideos.length
    let user1 := { user with dislikedVideos := [] }
    (reply 200 ("All " ++ toString deletedCount ++ " disliked videos removed successfully"),
      saveUser db user1)

end dislikedvideos

/-! ## routes/watchlater.js

The response of a successful add or remove lists the populated videos, so its
`count` is the number of watch-later ids whose video still exists. -/

namespace watchlater

/-- The `formattedVideos.length` of the re-read, populated user. -/
def populatedCount (db : DB) (username : String) : Option Nat :=
  (findOne db.users username).map
    (fun u => (u.watchLater.filter (fun vId => (findById db.videos vId).isSome)).length)

/-- `router.post('/')`: add a video to watch later. -/
def add (db : DB) (username : String) (videoId : Option IdString) : Response × DB :=
  match findOne db.users username with
  | none => (reply 404 "User not found", db)
  | some user =>
    match videoId with
    | none => (reply 400 "Video ID is required", db)
    | some videoId =>
      match findById db.videos videoId.id with
      | none => (reply 404 "Video not found", db)
      | some _ =>
        if includes user.watchLater videoId then
          (reply 400 "Video is already in watch later", db)
        else
          let user1 := { user with watchLater := user.watchLater ++ [videoId.id] }
          let db1 := saveUser db user1
          ({ status := 200, message := "Video added to watch later successfully",
             count := populatedCount db1 username }, db1)

/-- `router.delete('/:videoId')`: remove a video from watch later. -/
def remove (db : DB) (username : String) (videoId : IdString) : Response × DB :=
  match findOne db.users username with
  | none => (reply 404 "User not found", db)
  | some user =>
    if !includes user.watchLater videoId then
      (reply 400 "Video is not in watch later", db)
    else
      let user1 := { user with watchLater := without user.watchLater videoId.id }
      let db1 := saveUser db user1
      ({ status := 200, message := "Video removed from watch later successfully",
         count := populatedCount db1 username }, db1)

/-- `router.delete('/')`: clear all watch later videos. -/
def clear (db : DB) (username : String) : Response × DB :=
  match findOne db.users username with
  | none => (reply 404 "User not found", db)
  | some user =>
    let deletedCount := user.watchLater.length
    let user1 := { user with watchLater := [] }
    (reply 200 ("All " ++ toString deletedCount ++ " watch later videos removed successfully"),
      saveUser db user1)

end watchlater

/-! ## Requests and runs -/

/-- The requests that write `likedVideos`, `dislikedVideos`, `watchLater` or the
counters of a video. -/
inductive Op where
  | like (username : String) (id : ObjectId)
  | dislike (username : String) (id : ObjectId)
  | likedAdd (username : String) (videoId : Option IdString)
  | likedRemove (username : String) (videoId : IdString)
  | likedClear (username : String)
  | dislikedAdd (username : String) (videoId : Option IdString)
  | dislikedRemove (username : String) (videoId : IdString)
  | dislikedClear (username : String)
  | watchAdd (username : String) (videoId : Option IdString)
  | watchRemove (username : String) (videoId : IdString)
  | watchClear (username : String)
  | favorite (username : String) (videoId : IdString)
deriving DecidableEq, Repr

/-- Dispatch of one request to its handler. -/
def step (db : DB) : Op → Response × DB
  | .like u v => videos.like db u v
  | .dislike u v => videos.dislike db u v
  | .likedAdd u v => likedvideos.add db u v
  | .likedRemove u v => likedvideos.remove db u v
  | .likedClear u => likedvideos.clear db u
  | .dislikedAdd u v => dislikedvideos.add db u v
  | .dislikedRemove u v => dislikedvideos.remove db u v
  | .dislikedClear u => dislikedvideos.clear db u
  | .watchAdd u v => watchlater.add db u v
  | .watchRemove u v => watchlater.remove db u v
  | .watchClear u => watchlater.clear db u
  | .favorite u v => videos.favorite db u v

/-- The database after a sequence of requests, served one after the other. -/
def run (db : DB) (ops : List Op) : DB :=
  ops.foldl (fun d op => (step d op).2) db

/-- The requests of the mutual exclusion coordinator: the two toggles and the
liked / disliked add and remove. -/
def Op.coordinated : Op → Bool
  | .like _ _ | .dislike _ _ | .likedAdd _ _ | .likedRemove _ _
  | .dislikedAdd _ _ | .dislikedRemove _ _ => true
  | _ => false

/-! ## Properties of a database -/

/-- Number of users whose `likedVideos` contains `v`. -/
def likeCount (db : DB) (v : ObjectId) : Nat :=
  db.users.countP (fun u => u.likedVideos.contains v)

/-- Number of users whose `dislikedVideos` contains `v`. -/
def dislikeCount (db : DB) (v : ObjectId) : Nat :=
  db.users.countP (fun u => u.dislikedVideos.contains v)

/-- Invariant I5 at video `v`: the stored counters equal the membership counts. -/
def countersConsistent (db : DB) (v : ObjectId) : Prop :=
  ∀ video, findById db.videos v = some video →
    video.likes = (likeCount db v : Int) ∧ video.dislikes = (dislikeCount db v : Int)

/-- Invariant I1 for one user. -/
def User.exclusive (u : User) : Prop :=
  ∀ v, ¬ (v ∈ u.likedVideos ∧ v ∈ u.dislikedVideos)

/-- The counters of video `id` are non-negative integers. -/
def countersNonnegAt (db : DB) (id : ObjectId) : Prop :=
  ∀ video, findById db.videos id = some video → 0 ≤ video.likes ∧ 0 ≤ video.dislikes

/-- A store with one fresh user `"u"` and one fresh video `1`. -/
def db0 : DB :=
  { users := [{ _id := 7, username := "u", playlists := [], likedVideos := [],
                dislikedVideos := [], watchLater := [], history := [] }],
    videos := [{ _id := 1, likes := 0, dislikes := 0, uploadedBy := none, views := 0,
                 comments := [] }] }


/-! ## Stored documents, contracts and sample stores

The documents a successful request stores, the contracts the routes are checked
against, and small concrete stores. -/

/-- The user after `id` was put into `likedVideos` (and taken out of
`dislikedVideos`). -/
def User.addLiked (u : User) (id : ObjectId) : User :=
  { u with likedVideos := u.likedVideos ++ [id], dislikedVideos := without u.dislikedVideos id }

/-- The user after `id` was taken out of `likedVideos`. -/
def User.dropLiked (u : User) (id : ObjectId) : User :=
  { u with likedVideos := without u.likedVideos id }

/-- The user after `id` was put into `dislikedVideos` (and taken out of
`likedVideos`). -/
def User.addDisliked (u : User) (id : ObjectId) : User :=
  { u with dislikedVideos := u.dislikedVideos ++ [id], likedVideos := without u.likedVideos id }

/-- The user after `id` was taken out of `dislikedVideos`. -/
def User.dropDisliked (u : User) (id : ObjectId) : User :=
  { u with dislikedVideos := without u.dislikedVideos id }

/-- The video after user `u` added a like. -/
def Video.addLiked (v : Video) (u : User) : Video :=
  { v with likes := v.likes + 1,
           dislikes := if v._id ∈ u.dislikedVideos then max 0 (v.dislikes - 1) else v.dislikes }

/-- The video after a like was withdrawn. -/
def Video.dropLiked (v : Video) : Video :=
  { v with likes := max 0 (v.likes - 1) }

/-- The video after user `u` added a dislike. -/
def Video.addDisliked (v : Video) (u : User) : Video :=
  { v with dislikes := v.dislikes + 1,
           likes := if v._id ∈ u.likedVideos then max 0 (v.likes - 1) else v.likes }

/-- The video after a dislike was withdrawn. -/
def Video.dropDisliked (v : Video) : Video :=
  { v with dislikes := max 0 (v.dislikes - 1) }

/-- A store whose user `"u"` dislikes video `1`. -/
def dbDisliked : DB :=
  { users := [{ _id := 7, username := "u", playlists := [], likedVideos := [],
                dislikedVideos := [1], watchLater := [], history := [] }],
    videos := [{ _id := 1, likes := 0, dislikes := 1, uploadedBy := none, views := 0,
                 comments := [] }] }

/-- A store whose user `"u"` likes video `1` although the counter reads 0. -/
def dbZero : DB :=
  { users := [{ _id := 7, username := "u", playlists := [], likedVideos := [1],
                dislikedVideos := [], watchLater := [], history := [] }],
    videos := [{ _id := 1, likes := 0, dislikes := 0, uploadedBy := none, views := 0,
                 comments := [] }] }

/-- A store whose user `"u"` holds `[2, 1, 3, 1]` as liked videos and video `1`
counts one like. -/
def dbLiked : DB :=
  { users := [{ _id := 7, username := "u", playlists := [], likedVideos := [2, 1, 3, 1],
                dislikedVideos := [], watchLater := [], history := [] }],
    videos := [{ _id := 1, likes := 1, dislikes := 0, uploadedBy := none, views := 0,
                 comments := [] }] }

/-! ## Strings, playlists and history

`trim` stands for the JavaScript string method of the same name: it strips the
`WhiteSpace` and `LineTerminator` code points from both ends.
`String.prototype.toLowerCase` is the parameter `toLowerCase` of the handlers
that call it, so what is proved of them holds for the real mapping;
`toLowerASCII` agrees with it on strings of ASCII characters.  A new
sub-document receives its `_id` from Mongoose; the handlers that create one take
it as the argument `newId`.  `description` and `createdAt` are not paths of the
playlist schema and are not stored. -/

/-- The code points `String.prototype.trim` removes. -/
def isWhiteSpace (c : Char) : Bool :=
  [9, 10, 11, 12, 13, 32, 160, 5760, 8232, 8233, 8239, 8287, 12288, 65279].contains c.toNat
    || (8192 ≤ c.toNat && c.toNat ≤ 8202)

/-- `s.trim()`. -/
def trim (s : String) : String :=
  String.mk (((s.data.dropWhile isWhiteSpace).reverse.dropWhile isWhiteSpace).reverse)

/-- `s.toLowerCase()` for a string `s` of ASCII characters. -/
def toLowerASCII (s : String) : String :=
  String.mk (s.data.map Char.toLower)

/-- A string that is empty or holds white space only. -/
def blank (s : String) : Bool :=
  s.data.all isWhiteSpace

/-- `user.playlists.id(playlistId)`: the first sub-document with that `_id`. -/
def findPlaylist (playlists : List Playlist) (playlistId : ObjectId) : Option Playlist :=
  playlists.find? (fun p => p._id == playlistId)

/-- In-place change of the sub-document returned by `user.playlists.id(playlistId)`. -/
def setPlaylist (playlists : List Playlist) (playlistId : ObjectId) (playlist : Playlist) :
    List Playlist :=
  match playlists with
  | [] => []
  | p :: ps =>
    if p._id == playlistId then playlist :: ps else p :: setPlaylist ps playlistId playlist

/-! ## routes/playlists.js -/

namespace playlists

/-- `router.post('/')`: create playlist. -/
def create (toLowerCase : String → String) (db : DB) (username : String)
    (name : Option String) (newId : ObjectId) : Response × DB :=
  match findOne db.users username with
  | none => (reply 404 "User not found", db)
  | some user =>
    match name with
    | none => (reply 400 "Playlist name is required", db)
    | some name =>
      if name == "" || trim name == "" then
        (reply 400 "Playlist name is required", db)
      else
        match user.playlists.find? (fun p => toLowerCase p.name == toLowerCase name) with
        | some _ => (reply 400 "A playlist with this name already exists", db)
        | none =>
          let newPlaylist : Playlist := { _id := newId, name := trim name, videos := [] }
          let user1 := { user with playlists := user.playlists ++ [newPlaylist] }
          (reply 201 "Playlist created successfully", saveUser db user1)

/-- `router.put('/:playlistId')`: update playlist. -/
def update (toLowerCase : String → String) (db : DB) (username : String)
    (playlistId : IdString) (name : Option String) : Response × DB :=
  match findOne db.users username with
  | none => (reply 404 "User not found", db)
  | some user =>
    match findPlaylist user.playlists playlistId.id with
    | none => (reply 404 "Playlist not found", db)
    | some playlist =>
      match name with
      | none => (reply 200 "Playlist updated successfully", saveUser db user)
      | some name =>
        if !(name == "") && !(trim name == "") then
          match user.playlists.find?
              (fun p => toLowerCase p.name == toLowerCase name &&
                !(playlistId.isStringOf p._id)) with
          | some _ => (reply 400 "A playlist with this name already exists", db)
          | none =>
            let playlist1 := { playlist with name := trim name }
            let user1 :=
              { user with playlists := setPlaylist user.playlists playlistId.id playlist1 }
            (reply 200 "Playlist updated successfully", saveUser db user1)
        else (reply 200 "Playlist updated successfully", saveUser db user)

/-- `router.patch('/:playlistId/add')`: add video to playlist. -/
def addVideo (db : DB) (username : String) (playlistId : ObjectId)
    (videoId : Option IdString) : Response × DB :=
  match findOne db.users username with
  | none => (reply 404 "User not found", db)
  | some user =>
    match videoId with
    | none => (reply 400 "Video ID is required", db)
    | some videoId =>
      match findById db.videos videoId.id with
      | none => (reply 404 "Video not found", db)
      | some _ =>
        match findPlaylist user.playlists playlistId with
        | none => (reply 404 "Playlist not found", db)
        | some playlist =>
          if includes playlist.videos videoId then
            (reply 400 "Video is already in this playlist", db)
          else
            let playlist1 := { playlist with videos := playlist.videos ++ [videoId.id] }
            let user1 :=
              { user with playlists := setPlaylist user.playlists playlistId playlist1 }
            ({ status := 200, message := "Video added to playlist successfully",
               count := some playlist1.videos.length }, saveUser db user1)

/-- `router.delete('/:playlistId/remove')`: remove video from playlist. -/
def removeVideo (db : DB) (username : String) (playlistId : ObjectId)
    (videoId : Option IdString) : Response × DB :=
  match findOne db.users username with
  | none => (reply 404 "User not found", db)
  | some user =>
    match videoId with
    | none => (reply 400 "Video ID is required", db)
    | some videoId =>
      match findPlaylist user.playlists playlistId with
      | none => (reply 404 "Playlist not found", db)
      | some playlist =>
        let initialLength := playlist.videos.length
        let playlist1 := { playlist with videos := withoutString playlist.videos videoId }
        if playlist1.videos.length == initialLength then
          (reply 400 "Video is not in this playlist", db)
        else
          let user1 :=
            { user with playlists := setPlaylist user.playlists playlistId playlist1 }
          ({ status := 200, message := "Video removed from playlist successfully",
             count := some playlist1.videos.length }, saveUser db user1)

/-- `router.delete('/:playlistId')`: delete specific playlist. -/
def delete (db : DB) (username : String) (playlistId : IdString) : Response × DB :=
  match findOne db.users username with
  | none => (reply 404 "User not found", db)
  | some user =>
    match findPlaylist user.playlists playlistId.id with
    | none => (reply 404 "Playlist not found", db)
    | some _ =>
      let user1 :=
        { user with
          playlists := user.playlists.filter (fun p => !(playlistId.isStringOf p._id)) }
      (reply 200 "Playlist deleted successfully", saveUser db user1)

/-- `router.delete('/')`: delete all playlists. -/
def deleteAll (db : DB) (username : String) : Response × DB :=
  match findOne db.users username with
  | none => (reply 404 "User not found", db)
  | some user =>
    let deletedCount := user.playlists.length
    let user1 := { user with playlists := [] }
    (reply 200 ("All " ++ toString deletedCount ++ " playlists deleted successfully"),
      saveUser db user1)

end playlists

/-! ## routes/videos.js: the playlist routes -/

namespace videos

/-- `router.post('/videos/:videoId/add-to-playlist')`. -/
def addToPlaylist (db : DB) (username : String) (videoId : IdString)
    (playlistId : Option ObjectId) : Response × DB :=
  match playlistId with
  | none => (reply 400 "Playlist ID is required", db)
  | some playlistId =>
    match findOne db.users username with
    | none => (reply 404 "User not found", db)
    | some user =>
      match findById db.videos videoId.id with
      | none => (reply 404 "Video not found", db)
      | some _ =>
        match findPlaylist user.playlists playlistId with
        | none => (reply 404 "Playlist not found", db)
        | some playlist =>
          if includes playlist.videos videoId then
            (reply 400 "Video is already in this playlist", db)
          else
            let playlist1 := { playlist with videos := playlist.videos ++ [videoId.id] }
            let user1 :=
              { user with playlists := setPlaylist user.playlists playlistId playlist1 }
            ({ status := 200, message := "Video added to playlist successfully",
               count := some playlist1.videos.length }, saveUser db user1)

/-- `router.delete('/videos/:videoId/remove-from-playlist')`. -/
def removeFromPlaylist (db : DB) (username : String) (videoId : IdString)
    (playlistId : Option ObjectId) : Response × DB :=
  match playlistId with
  | none => (reply 400 "Playlist ID is required", db)
  | some playlistId =>
    match findOne db.users username with
    | none => (reply 404 "User not found", db)
    | some user =>
      match findPlaylist user.playlists playlistId with
      | none => (reply 404 "Playlist not found", db)
      | some playlist =>
        let playlist1 := { playlist with videos := withoutString playlist.videos videoId }
        let user1 :=
          { user with playlists := setPlaylist user.playlists playlistId playlist1 }
        ({ status := 200, message := "Video removed from playlist successfully",
           count := some playlist1.videos.length }, saveUser db user1)

/-- `router.post('/api/playlists')`: the legacy create-playlist route. -/
def createPlaylist (db : DB) (username : String) (name : Option String)
    (newId : ObjectId) : Response × DB :=
  match findOne db.users username with
  | none => (reply 404 "User not found", db)
  | some user =>
    match name with
    | none => (reply 400 "Playlist name required", db)
    | some name =>
      if name == "" then (reply 400 "Playlist name required", db)
      else
        let user1 :=
          { user with playlists := user.playlists ++ [{ _id := newId, name := name, videos := [] }] }
        (reply 200 "ok", saveUser db user1)

end videos

/-! ## routes/history.js

`now` is the value of `new Date()`.  The filter callback reads
`entry.video.toString()` of every stored entry, which throws for an entry
without a video; the handler then answers 500 and saves nothing. -/

/-- `entry.video.toString() !== s` for an entry that has a video; `s` is the id
string of the request, `none` when the request carries none. -/
def differs (entry : HistoryEntry) (s : Option IdString) : Bool :=
  match entry.video, s with
  | some video, some s => !(s.isStringOf video)
  | _, _ => true

namespace history

/-- `router.post('/')`: add or update video in history. -/
def record (db : DB) (username : String) (videoId : Option IdString) (now : Nat) :
    Response × DB :=
  match findOne db.users username with
  | none => (reply 404 "User not found", db)
  | some user =>
    if user.history.any (fun entry => entry.video.isNone) then
      (reply 500 "Failed to update history", db)
    else
      let history1 := user.history.filter (fun entry => differs entry videoId)
      let history2 :=
        ({ video := videoId.map (fun s => s.id), watchedAt := now } : HistoryEntry) :: history1
      let history3 := history2.take 100
      let user1 := { user with history := history3 }
      (reply 200 "", saveUser db user1)

/-- `router.patch('/')`: add or update video in history; `video` is the body
field, an object whose `_id` may be missing. -/
def recordPatch (db : DB) (username : String) (video : Option (Option IdString))
    (now : Nat) : Response × DB :=
  match findOne db.users username with
  | none => (reply 404 "User not found", db)
  | some user =>
    match video with
    | none => (reply 500 "Failed to update history", db)
    | some video_id =>
      if user.history.any (fun entry => entry.video.isNone) then
        (reply 500 "Failed to update history", db)
      else
        let history1 := user.history.filter (fun entry => differs entry video_id)
        let history2 :=
          ({ video := video_id.map (fun s => s.id), watchedAt := now } : HistoryEntry) ::
            history1
        let history3 := history2.take 100
        let user1 := { user with history := history3 }
        (reply 200 "ok", saveUser db user1)

end history

/-! ## Playlist requests and runs -/

/-- The requests that write `playlists`. -/
inductive PlaylistOp where
  | create (username : String) (name : Option String) (newId : ObjectId)
  | legacyCreate (username : String) (name : Option String) (newId : ObjectId)
  | update (username : String) (playlistId : IdString) (name : Option String)
  | addVideo (username : String) (playlistId : ObjectId) (videoId : Option IdString)
  | addToPlaylist (username : String) (videoId : IdString) (playlistId : Option ObjectId)
  | removeVideo (username : String) (playlistId : ObjectId) (videoId : Option IdString)
  | removeFromPlaylist (username : String) (videoId : IdString) (playlistId : Option ObjectId)
  | delete (username : String) (playlistId : IdString)
  | deleteAll (username : String)
deriving DecidableEq, Repr

/-- Dispatch of one playlist request to its handler. -/
def pstep (toLowerCase : String → String) (db : DB) : PlaylistOp → Response × DB
  | .create u n i => playlists.create toLowerCase db u n i
  | .legacyCreate u n i => videos.createPlaylist db u n i
  | .update u p n => playlists.update toLowerCase db u p n
  | .addVideo u p v => playlists.addVideo db u p v
  | .addToPlaylist u v p => videos.addToPlaylist db u v p
  | .removeVideo u p v => playlists.removeVideo db u p v
  | .removeFromPlaylist u v p => videos.removeFromPlaylist db u v p
  | .delete u p => playlists.delete db u p
  | .deleteAll u => playlists.deleteAll db u

/-- The database after a sequence of playlist requests. -/
def prun (toLowerCase : String → String) (db : DB) (ops : List PlaylistOp) : DB :=
  ops.foldl (fun d op => (pstep toLowerCase d op).2) db

/-- Invariant I4 for every stored user: no playlist holds a video id twice. -/
def videosUnique (db : DB) : Prop :=
  ∀ u ∈ db.users, ∀ p ∈ u.playlists, p.videos.Nodup

/-- No relation array of the user holds a video id twice. -/
def User.relNodup (u : User) : Prop :=
  u.likedVideos.Nodup ∧ u.dislikedVideos.Nodup ∧ u.watchLater.Nodup

/-- No relation array of a stored user holds a video id twice. -/
def relationsUnique (db : DB) : Prop :=
  ∀ u ∈ db.users, u.relNodup

/-- The contract of `Clear(user)` on the relation `R`, for an existing user:
success, the prior count in the message, the relation emptied and nothing else
touched.  `emptied u` is `u` with `R` set to `[]`, `noun` the text after the
count. -/
def ClearContract (clear : DB → String → Response × DB) (R : User → List ObjectId)
    (emptied : User → User) (noun : String) (db : DB) (username : String) : Prop :=
  ∀ user, findOne db.users username = some user →
    (clear db username).1.status = 200 ∧
    (clear db username).1.message = "All " ++ toString (R user).length ++ noun ∧
    (∃ user1, findOne (clear db username).2.users username = some user1 ∧
      R user1 = [] ∧ user1 = emptied user) ∧
    (clear db username).2.videos = db.videos ∧
    (clear db username).2.users.filter (fun x => x._id != user._id) =
      db.users.filter (fun x => x._id != user._id)

/-- A store whose user `"u"` owns the playlists `"Favorites"` (videos `[1, 2]`)
and `"Later"` (no videos), with the videos `1`, `2` and `3`. -/
def dbPlaylists : DB :=
  { users := [{ _id := 7, username := "u",
                playlists := [{ _id := 10, name := "Favorites", videos := [1, 2] },
                              { _id := 11, name := "Later", videos := [] }],
                likedVideos := [], dislikedVideos := [], watchLater := [], history := [] }],
    videos := [{ _id := 1, likes := 0, dislikes := 0, uploadedBy := none, views := 0,
                 comments := [] },
               { _id := 2, likes := 0, dislikes := 0, uploadedBy := none, views := 0,
                 comments := [] },
               { _id := 3, likes := 0, dislikes := 0, uploadedBy := none, views := 0,
                 comments := [] }] }

/-- The user document of `dbPlaylists`. -/
def userPlaylists : User :=
  { _id := 7, username := "u",
    playlists := [{ _id := 10, name := "Favorites", videos := [1, 2] },
                  { _id := 11, name := "Later", videos := [] }],
    likedVideos := [], dislikedVideos := [], watchLater := [], history := [] }

/-! ## routes/history.js: read, remove, clear -/

/-- One element of the `history` array of a read response. -/
structure HistoryView where
  _id : ObjectId
  views : Int
  uploader : Option ObjectId
  watchedAt : Nat
deriving DecidableEq, Repr

/-- A history entry after `populate('history.video')`: the referenced document,
`none` when the entry has no video or the video no longer exists. -/
structure PopulatedEntry where
  video : Option Video
  watchedAt : Nat
deriving DecidableEq, Repr

/-- `populate('history.video')` on one entry. -/
def populate (db : DB) (entry : HistoryEntry) : PopulatedEntry :=
  { video := entry.video.bind (findById db.videos), watchedAt := entry.watchedAt }

/-- The order `sort((a, b) => b.watchedAt - a.watchedAt)` establishes: `a` may
stand before `b`. -/
def newerFirst (a b : PopulatedEntry) : Prop :=
  b.watchedAt ≤ a.watchedAt

/-- The comparison the sort makes is decidable. -/
def newerFirstDec : DecidableRel newerFirst :=
  fun a b => inferInstanceAs (Decidable (b.watchedAt ≤ a.watchedAt))

/-- The stable sort `sort((a, b) => b.watchedAt - a.watchedAt)`. -/
def sortByWatchedAt (entries : List PopulatedEntry) : List PopulatedEntry :=
  @List.insertionSort PopulatedEntry newerFirst newerFirstDec entries

/-- The `map(entry => (...))` and `filter(v => v._id)` of the read route on one
entry: an entry without a populated video is dropped. -/
def toView (entry : PopulatedEntry) : Option HistoryView :=
  entry.video.map (fun video =>
    { _id := video._id, views := video.views, uploader := video.uploadedBy,
      watchedAt := entry.watchedAt })

namespace history

/-- `router.get('/')`: get user history; the second component is the `history`
array of the response. -/
def read (db : DB) (username : String) : Response × List HistoryView :=
  match findOne db.users username with
  | none => (reply 404 "User not found", [])
  | some user =>
    let populated := user.history.map (populate db)
    let sorted := sortByWatchedAt populated
    (reply 200 "", sorted.filterMap toView)

/-- `router.delete('/:videoId')`: remove video from history. -/
def remove (db : DB) (username : String) (videoId : IdString) : Response × DB :=
  match findOne db.users username with
  | none => (reply 404 "User not found", db)
  | some user =>
    if user.history.any (fun entry => entry.video.isNone) then
      (reply 500 "Failed to remove from history", db)
    else
      let user1 :=
        { user with history := user.history.filter (fun entry => differs entry (some videoId)) }
      (reply 200 "", saveUser db user1)

/-- `router.delete('/')`: clear all history. -/
def clear (db : DB) (username : String) : Response × DB :=
  match findOne db.users username with
  | none => (reply 404 "User not found", db)
  | some user =>
    let user1 := { user with history := [] }
    (reply 200 "History cleared", saveUser db user1)

end history

/-- The requests that write `history`. -/
inductive HistoryOp where
  | record (username : String) (videoId : Option IdString) (now : Nat)
  | recordPatch (username : String) (video : Option (Option IdString)) (now : Nat)
  | remove (username : String) (videoId : IdString)
  | clear (username : String)
deriving DecidableEq, Repr

/-- Dispatch of one history request to its handler. -/
def hstep (db : DB) : HistoryOp → Response × DB
  | .record u v t => history.record db u v t
  | .recordPatch u v t => history.recordPatch db u v t
  | .remove u v => history.remove db u v
  | .clear u => history.clear db u

/-- The database after a sequence of history requests. -/
def hrun (db : DB) (ops : List HistoryOp) : DB :=
  ops.foldl (fun d op => (hstep d op).2) db

/-- The database after recording the videos of `vs`, each with its time, in
order. -/
def recordAll (db : DB) (username : String) : List (IdString × Nat) → DB
  | [] => db
  | p :: rest => recordAll (history.record db username (some p.1) p.2).2 username rest

/-- Invariant I2, uniqueness part, for every stored user. -/
def historyUnique (db : DB) : Prop :=
  ∀ u ∈ db.users, (u.history.map (fun e => e.video)).Nodup

/-- Every stored history is in descending order of `watchedAt`. -/
def historySorted (db : DB) : Prop :=
  ∀ u ∈ db.users, u.history.Pairwise (fun a b => b.watchedAt ≤ a.watchedAt)

/-- A record request whose time is not before any `watchedAt` the acting user
already holds. -/
def opTimely (db : DB) : HistoryOp → Prop
  | .record u _ now => ∀ user, findOne db.users u = some user →
      ∀ e ∈ user.history, e.watchedAt ≤ now
  | .recordPatch u _ now => ∀ user, findOne db.users u = some user →
      ∀ e ∈ user.history, e.watchedAt ≤ now
  | _ => True

/-- A run in which every record request is timely in the state it meets. -/
def timely (db : DB) : List HistoryOp → Prop
  | [] => True
  | op :: ops => opTimely db op ∧ timely (hstep db op).2 ops

/-- A store whose user `"u"` holds a history out of storage order, with an
entry for the video `9` that does not exist. -/
def dbHistory : DB :=
  { users := [{ _id := 7, username := "u", playlists := [], likedVideos := [],
                dislikedVideos := [], watchLater := [],
                history := [{ video := some 1, watchedAt := 3 }, { video := some 9, watchedAt := 8 },
                            { video := some 2, watchedAt := 5 }] }],
    videos := [{ _id := 1, likes := 0, dislikes := 0, uploadedBy := none, views := 4,
                 comments := [] },
               { _id := 2, likes := 0, dislikes := 0, uploadedBy := none, views := 6,
                 comments := [] }] }

/-- The history entry of a recorded pair (video, time). -/
def entryOf (p : IdString × Nat) : HistoryEntry :=
  { video := some p.1.id, watchedAt := p.2 }

/-- The user with `likedVideos` and `dislikedVideos` exchanged. -/
def swapUser (u : User) : User :=
  { u with likedVideos := u.dislikedVideos, dislikedVideos := u.likedVideos }

/-- The video with `likes` and `dislikes` exchanged. -/
def swapVideo (v : Video) : Video :=
  { v with likes := v.dislikes, dislikes := v.likes }

/-- The store with the roles of like and dislike exchanged in every document. -/
def swapDB (db : DB) : DB :=
  { users := db.users.map swapUser, videos := db.videos.map swapVideo }

/-! ## Writes that may fail

Every handler awaits its `save()` calls inside `try` and answers 500 from the
`catch`.  Below, each of the two writes of a request either goes through or
throws; a write that went through before the throw stays in the database. -/

/-- `await video.save()` where the write goes through only when `ok`; `none` is
the thrown error. -/
def trySaveVideo (ok : Bool) (db : DB) (video : Video) : Option DB :=
  if ok then some (saveVideo db video) else none

/-- `await user.save()` where the write goes through only when `ok`; `none` is
the thrown error. -/
def trySaveUser (ok : Bool) (db : DB) (user : User) : Option DB :=
  if ok then some (saveUser db user) else none

namespace videos

/-- `router.post('/videos/:id/like')` with `video.save()` going through when
`videoOk` and `user.save()` when `userOk`. -/
def likeFallible (videoOk userOk : Bool) (db : DB) (username : String) (id : ObjectId) :
    Response × DB :=
  match findById db.videos id, findOne db.users username with
  | none, _ => (reply 404 "Video not found", db)
  | some _, none => (reply 404 "User not found", db)
  | some video, some user =>
    let alreadyLiked := user.likedVideos.contains video._id
    if !alreadyLiked then
      let video1 := { video with likes := video.likes + 1 }
      let user1 := { user with likedVideos := user.likedVideos ++ [video1._id] }
      let wasDisliked := user1.dislikedVideos.contains video1._id
      let video2 :=
        if wasDisliked then { video1 with dislikes := max 0 (video1.dislikes - 1) } else video1
      let user2 :=
        if wasDisliked then
          { user1 with dislikedVideos := without user1.dislikedVideos video1._id }
        else user1
      match trySaveVideo videoOk db video2 with
      | none => (reply 500 "Failed to like video", db)
      | some db1 =>
        match trySaveUser userOk db1 user2 with
        | none => (reply 500 "Failed to like video", db1)
        | some db2 => (reply 200 "Video liked successfully", db2)
    else
      let video1 := { video with likes := max 0 (video.likes - 1) }
      let user1 := { user with likedVideos := without user.likedVideos video1._id }
      match trySaveVideo videoOk db video1 with
      | none => (reply 500 "Failed to like video", db)
      | some db1 =>
        match trySaveUser userOk db1 user1 with
        | none => (reply 500 "Failed to like video", db1)
        | some db2 => (reply 200 "Video unliked successfully", db2)

/-- `router.post('/videos/:id/dislike')` with `video.save()` going through when
`videoOk` and `user.save()` when `userOk`. -/
def dislikeFallible (videoOk userOk : Bool) (db : DB) (username : String) (id : ObjectId) :
    Response × DB :=
  match findById db.videos id, findOne db.users username with
  | none, _ => (reply 404 "Video not found", db)
  | some _, none => (reply 404 "User not found", db)
  | some video, some user =>
    let alreadyDisliked := user.dislikedVideos.contains video._id
    if !alreadyDisliked then
      let video1 := { video with dislikes := video.dislikes + 1 }
      let user1 := { user with dislikedVideos := user.dislikedVideos ++ [video1._id] }
      let wasLiked := user1.likedVideos.contains video1._id
      let video2 :=
        if wasLiked then { video1 with likes := max 0 (video1.likes - 1) } else video1
      let user2 :=
        if wasLiked then
          { user1 with likedVideos := without user1.likedVideos video1._id }
        else user1
      match trySaveVideo videoOk db video2 with
      | none => (reply 500 "Failed to dislike video", db)
      | some db1 =>
        match trySaveUser userOk db1 user2 with
        | none => (reply 500 "Failed to dislike video", db1)
        | some db2 => (reply 200 "Video disliked successfully", db2)
    else
      let video1 := { video with dislikes := max 0 (video.dislikes - 1) }
      let user1 := { user with dislikedVideos := without user.dislikedVideos video1._id }
      match trySaveVideo videoOk db video1 with
      | none => (reply 500 "Failed to dislike video", db)
      | some db1 =>
        match trySaveUser userOk db1 user1 with
        | none => (reply 500 "Failed to dislike video", db1)
        | some db2 => (reply 200 "Video dislike removed successfully", db2)

end videos

namespace likedvideos

/-- `router.post('/')` of the liked videos with `user.save()` going through
when `userOk` and `video.save()` when `videoOk`. -/
def addFallible (videoOk userOk : Bool) (db : DB) (username : String)
    (videoId : Option IdString) : Response × DB :=
  match findOne db.users username with
  | none => (reply 404 "User not found", db)
  | some user =>
    match videoId with
    | none => (reply 400 "Video ID is required", db)
    | some videoId =>
      match findById db.videos videoId.id with
      | none => (reply 404 "Video not found", db)
      | some video =>
        if includes user.likedVideos videoId then
          (reply 400 "Video is already in liked videos", db)
        else
          let user1 := { user with likedVideos := user.likedVideos ++ [videoId.id] }
          let wasDisliked := includes user1.dislikedVideos videoId
          let user2 :=
            if wasDisliked then
              { user1 with dislikedVideos := without user1.dislikedVideos videoId.id }
            else user1
          let video1 :=
            if wasDisliked then { video with dislikes := max 0 (video.dislikes - 1) } else video
          let video2 := { video1 with likes := video1.likes + 1 }
          match trySaveUser userOk db user2 with
          | none => (reply 500 "Failed to add to liked videos", db)
          | some db1 =>
            match trySaveVideo videoOk db1 video2 with
            | none => (reply 500 "Failed to add to liked videos", db1)
            | some db2 =>
              ({ status := 200, message := "Video added to liked videos successfully",
                 count := some user2.likedVideos.length }, db2)

/-- `router.delete('/:videoId')` of the liked videos with `video.save()` going
through when `videoOk` and `user.save()` when `userOk`. -/
def removeFallible (videoOk userOk : Bool) (db : DB) (username : String)
    (videoId : IdString) : Response × DB :=
  match findOne db.users username with
  | none => (reply 404 "User not found", db)
  | some user =>
    if !includes user.likedVideos videoId then
      (reply 400 "Video is not in liked videos", db)
    else
      let user1 := { user with likedVideos := without user.likedVideos videoId.id }
      let saved :=
        match findById db.videos videoId.id with
        | some video => trySaveVideo videoOk db { video with likes := max 0 (video.likes - 1) }
        | none => some db
      match saved with
      | none => (reply 500 "Failed to remove from liked videos", db)
      | some db1 =>
        match trySaveUser userOk db1 user1 with
        | none => (reply 500 "Failed to remove from liked videos", db1)
        | some db2 =>
          ({ status := 200, message := "Video removed from liked videos successfully",
             count := some user1.likedVideos.length }, db2)

end likedvideos

namespace dislikedvideos

/-- `router.post('/')` of the disliked videos with `user.save()` going through
when `userOk` and `video.save()` when `videoOk`. -/
def addFallible (videoOk userOk : Bool) (db : DB) (username : String)
    (videoId : Option IdString) : Response × DB :=
  match findOne db.users username with
  | none => (reply 404 "User not found", db)
  | some user =>
    match videoId with
    | none => (reply 400 "Video ID is required", db)
    | some videoId =>
      match findById db.videos videoId.id with
      | none => (reply 404 "Video not found", db)
      | some video =>
        if includes user.dislikedVideos videoId then
          (reply 400 "Video is already in disliked videos", db)
        else
          let user1 := { user with dislikedVideos := user.dislikedVideos ++ [videoId.id] }
          let wasLiked := includes user1.likedVideos videoId
          let user2 :=
            if wasLiked then
              { user1 with likedVideos := without user1.likedVideos videoId.id }
            else user1
          let video1 :=
            if wasLiked then { video with likes := max 0 (video.likes - 1) } else video
          let video2 := { video1 with dislikes := video1.dislikes + 1 }
          match trySaveUser userOk db user2 with
          | none => (reply 500 "Failed to add to disliked videos", db)
          | some db1 =>
            match trySaveVideo videoOk db1 video2 with
            | none => (reply 500 "Failed to add to disliked videos", db1)
            | some db2 =>
              ({ status := 200, message := "Video added to disliked videos successfully",
                 count := some user2.dislikedVideos.length }, db2)

/-- `router.delete('/:videoId')` of the disliked videos with `video.save()`
going through when `videoOk` and `user.save()` when `userOk`. -/
def removeFallible (videoOk userOk : Bool) (db : DB) (username : String)
    (videoId : IdString) : Response × DB :=
  match findOne db.users username with
  | none => (reply 404 "User not found", db)
  | some user =>
    if !includes user.dislikedVideos videoId then
      (reply 400 "Video is not in disliked videos", db)
    else
      let user1 := { user with dislikedVideos := without user.dislikedVideos videoId.id }
      let saved :=
        match findById db.videos videoId.id with
        | some video =>
          trySaveVideo videoOk db { video with dislikes := max 0 (video.dislikes - 1) }
        | none => some db
      match saved with
      | none => (reply 500 "Failed to remove from disliked videos", db)
      | some db1 =>
        match trySaveUser userOk db1 user1 with
        | none => (reply 500 "Failed to remove from disliked videos", db1)
        | some db2 =>
          ({ status := 200, message := "Video removed from disliked videos successfully",
             count := some user1.dislikedVideos.length }, db2)

end dislikedvideos

/-! ## routes/videos.js: comments -/

/-- `video.comments.id(commentId)`: the first sub-document with that `_id`. -/
def findComment (comments : List Comment) (commentId : ObjectId) : Option Comment :=
  comments.find? (fun c => c._id == commentId)

/-- In-place change of the sub-document returned by `video.comments.id(commentId)`. -/
def setComment (comments : List Comment) (commentId : ObjectId) (comment : Comment) :
    List Comment :=
  match comments with
  | [] => []
  | c :: cs =>
    if c._id == commentId then comment :: cs else c :: setComment cs commentId comment

namespace videos

/-- `router.put('/videos/:videoId/comments/:commentId')`: update a comment;
`text` is the body field, `none` when the request carries none. -/
def updateComment (db : DB) (username : String) (videoId commentId : ObjectId)
    (text : Option String) : Response × DB :=
  match text with
  | none => (reply 400 "Comment text is required", db)
  | some text =>
    if text == "" || trim text == "" then
      (reply 400 "Comment text is required", db)
    else
      match findById db.videos videoId with
      | none => (reply 404 "Video not found", db)
      | some video =>
        match findComment video.comments commentId with
        | none => (reply 404 "Comment not found", db)
        | some comment =>
          match findOne db.users username with
          | none => (reply 404 "User not found", db)
          | some user =>
            let isUploader :=
              match video.uploadedBy with
              | some uploadedBy => user._id == uploadedBy
              | none => false
            if !(comment.user == user._id) && !isUploader then
              (reply 403 "Not authorized to update this comment", db)
            else
              let comment1 := { comment with text := text }
              let video1 :=
                { video with comments := setComment video.comments commentId comment1 }
              (reply 200 "", saveVideo db video1)

/-- `router.delete('/videos/:videoId/comments/:commentId')`: delete a comment. -/
def deleteComment (db : DB) (username : String) (videoId : ObjectId)
    (commentId : IdString) : Response × DB :=
  match findById db.videos videoId with
  | none => (reply 404 "Video not found", db)
  | some video =>
    match findComment video.comments commentId.id with
    | none => (reply 404 "Comment not found", db)
    | some comment =>
      match findOne db.users username with
      | none => (reply 404 "User not found", db)
      | some user =>
        let isUploader :=
          match video.uploadedBy with
          | some uploadedBy => user._id == uploadedBy
          | none => false
        if !(comment.user == user._id) && !isUploader then
          (reply 403 "Not authorized to delete this comment", db)
        else
          let video1 :=
            { video with
              comments := video.comments.filter (fun c => !(commentId.isStringOf c._id)) }
          (reply 200 "", saveVideo db video1)

end videos

/-- The acting user is the comment's author or the video's uploader. -/
def authorOrUploader (user : User) (comment : Comment) (video : Video) : Bool :=
  comment.user == user._id || video.uploadedBy == some user._id

/-- The request carries a comment text that is not empty or whitespace-only. -/
def hasText : Option String → Bool
  | none => false
  | some text => !(text == "" || trim text == "")

/-- A store with one fresh user `"u"` and the fresh videos `10` and `11`, whose
ids are printed `...0a` and `...0b` and can be spelled `...0A` and `...0B`. -/
def dbTen : DB :=
  { users := [{ _id := 7, username := "u", playlists := [], likedVideos := [],
                dislikedVideos := [], watchLater := [], history := [] }],
    videos := [{ _id := 10, likes := 0, dislikes := 0, uploadedBy := none, views := 0,
                 comments := [] },
               { _id := 11, likes := 0, dislikes := 0, uploadedBy := none, views := 0,
                 comments := [] }] }

/-- A store with the video `1` uploaded by user `8`, carrying the comments `10`
(by user `7`) and `11` (by user `9`), and the users `"u"` (7), `"up"` (8),
`"w"` (9) and `"s"` (5). -/
def dbComments : DB :=
  { users := [{ _id := 7, username := "u", playlists := [], likedVideos := [],
                dislikedVideos := [], watchLater := [], history := [] },
              { _id := 8, username := "up", playlists := [], likedVideos := [],
                dislikedVideos := [], watchLater := [], history := [] },
              { _id := 9, username := "w", playlists := [], likedVideos := [],
                dislikedVideos := [], watchLater := [], history := [] },
              { _id := 5, username := "s", playlists := [], likedVideos := [],
                dislikedVideos := [], watchLater := [], history := [] }],
    videos := [{ _id := 1, likes := 0, dislikes := 0, uploadedBy := some 8, views := 0,
                 comments := [{ _id := 10, text := "first", user := 7, username := "u",
                                createdAt := 1, isUploader := false },
                              { _id := 11, text := "second", user := 9, username := "w",
                                createdAt := 2, isUploader := false }] }] }


/-- The store `dbTen` after its user created the playlist `12` named `"Mix"` and
added the videos `10` and `11` to it. -/
def dbMix : DB :=
  { users := [{ _id := 7, username := "u",
                playlists := [{ _id := 12, name := "Mix", videos := [10, 11] }],
                likedVideos := [], dislikedVideos := [], watchLater := [], history := [] }],
    videos := [{ _id := 10, likes := 0, dislikes := 0, uploadedBy := none, views := 0,
                 comments := [] },
               { _id := 11, likes := 0, dislikes := 0, uploadedBy := none, views := 0,
                 comments := [] }] }

/-- The history a record request for the id string `s` stores over the history
`h`: the new entry, then the entries the filter keeps, cut to 100. -/
def recorded (h : List HistoryEntry) (s : IdString) (now : Nat) : List HistoryEntry :=
  (({ video := some s.id, watchedAt := now } : HistoryEntry) ::
    h.filter (fun entry => differs entry (some s))).take 100

/-! ## Lookups and saves -/

theorem findOne_some {users : List User} {username : String} {u : User}
    (h : findOne users username = some u) : u ∈ users ∧ u.username = username := by
  unfold findOne at h
  exact ⟨List.mem_of_find?_eq_some h, by simpa using List.find?_some h⟩

theorem findById_some {videos : List Video} {id : ObjectId} {v : Video}
    (h : findById videos id = some v) : v ∈ videos ∧ v._id = id := by
  unfold findById at h
  exact ⟨List.mem_of_find?_eq_some h, by simpa using List.find?_some h⟩

@[simp] theorem saveUser_videos (db : DB) (u : User) : (saveUser db u).videos = db.videos := rfl

@[simp] theorem saveVideo_users (db : DB) (v : Video) : (saveVideo db v).users = db.users := rfl

theorem find?_cons_ite {α : Type} (p : α → Bool) (y : α) (ys : List α) :
    (y :: ys).find? p = if p y = true then some y else ys.find? p := by
  rw [List.find?_cons]
  cases p y <;> rfl

theorem find?_username_replace (l : List User) (username : String) (u0 u : User)
    (h : l.find? (fun x => x.username == username) = some u0) (hid : u._id = u0._id)
    (hname : u.username = username) :
    (l.map (fun x => if x._id == u._id then u else x)).find?
      (fun x => x.username == username) = some u := by
  have hub : (u.username == username) = true := by simpa using hname
  induction l with
  | nil => simp at h
  | cons x xs ih =>
    rw [List.map_cons]
    by_cases hx : (x.username == username) = true
    · rw [find?_cons_ite, if_pos hx] at h
      have hx0 : x = u0 := by simpa using h
      subst hx0
      have hi : (x._id == u._id) = true := by simpa using hid.symm
      rw [if_pos hi, find?_cons_ite, if_pos hub]
    · rw [find?_cons_ite, if_neg hx] at h
      by_cases hxi : (x._id == u._id) = true
      · rw [if_pos hxi, find?_cons_ite, if_pos hub]
      · rw [if_neg hxi, find?_cons_ite, if_neg hx]
        exact ih h

theorem find?_id_replace (l : List Video) (id : ObjectId) (v0 v : Video)
    (h : l.find? (fun x => x._id == id) = some v0) (hid : v._id = id) :
    (l.map (fun x => if x._id == v._id then v else x)).find?
      (fun x => x._id == id) = some v := by
  have hvb : (v._id == id) = true := by simpa using hid
  induction l with
  | nil => simp at h
  | cons x xs ih =>
    rw [List.map_cons]
    by_cases hx : (x._id == id) = true
    · have hi : (x._id == v._id) = true := by
        rw [hid]; exact hx
      rw [if_pos hi, find?_cons_ite, if_pos hvb]
    · rw [find?_cons_ite, if_neg hx] at h
      have hi : ¬ (x._id == v._id) = true := by
        rw [hid]; exact hx
      rw [if_neg hi, find?_cons_ite, if_neg hx]
      exact ih h

theorem find?_id_replace_ne (l : List Video) (id : ObjectId) (v : Video) (hid : v._id ≠ id) :
    (l.map (fun x => if x._id == v._id then v else x)).find?
      (fun x => x._id == id) = l.find? (fun x => x._id == id) := by
  have hvb : ¬ (v._id == id) = true := by simpa using hid
  induction l with
  | nil => rfl
  | cons x xs ih =>
    rw [List.map_cons]
    by_cases hx : (x._id == v._id) = true
    · have hx2 : ¬ (x._id == id) = true := by
        have e : x._id = v._id := by simpa using hx
        rw [e]; exact hvb
      rw [if_pos hx, find?_cons_ite, if_neg hvb, find?_cons_ite, if_neg hx2]
      exact ih
    · rw [if_neg hx]
      by_cases hx3 : (x._id == id) = true
      · rw [find?_cons_ite, if_pos hx3, find?_cons_ite, if_pos hx3]
      · rw [find?_cons_ite, if_neg hx3, find?_cons_ite, if_neg hx3]
        exact ih

/-- After `user.save()` the user is read back under its username. -/
theorem findOne_saveUser {db : DB} {username : String} {u0 u : User}
    (h : findOne db.users username = some u0) (hid : u._id = u0._id)
    (hname : u.username = username) :
    findOne (saveUser db u).users username = some u :=
  find?_username_replace db.users username u0 u h hid hname

/-- After `video.save()` the video is read back under its id. -/
theorem findById_saveVideo {db : DB} {id : ObjectId} {v0 v : Video}
    (h : findById db.videos id = some v0) (hid : v._id = id) :
    findById (saveVideo db v).videos id = some v :=
  find?_id_replace db.videos id v0 v h hid

/-- Saving a video leaves the lookup of every other id as it was. -/
theorem findById_saveVideo_ne (db : DB) {id : ObjectId} {v : Video} (hid : v._id ≠ id) :
    findById (saveVideo db v).videos id = findById db.videos id :=
  find?_id_replace_ne db.videos id v hid

theorem contains_of_mem {l : List ObjectId} {a : ObjectId} (h : a ∈ l) :
    l.contains a = true := by
  simpa using h

theorem contains_of_not_mem {l : List ObjectId} {a : ObjectId} (h : a ∉ l) :
    l.contains a = false := by
  simpa using h

theorem without_eq_filter (arr : List ObjectId) (id : ObjectId) :
    without arr id = arr.filter (fun x => x ≠ id) := by
  unfold without
  apply List.filter_congr
  intro x _
  by_cases h : x = id <;> simp [h]

theorem without_eq_self {arr : List ObjectId} {id : ObjectId} (h : id ∉ arr) :
    without arr id = arr := by
  unfold without
  rw [List.filter_eq_self]
  intro a ha
  have : a ≠ id := fun e => h (e ▸ ha)
  simpa using this

/-! ## The documents a toggle stores

The lemmas of this section compute, for each branch of the two toggles, the
user and the video document the handler stores. -/

theorem like_of_not_mem {db : DB} {username : String} {id : ObjectId} {user : User}
    {video : Video} (hu : findOne db.users username = some user)
    (hv : findById db.videos id = some video) (hl : id ∉ user.likedVideos) :
    videos.like db username id =
      (reply 200 "Video liked successfully",
        saveUser (saveVideo db (video.addLiked user)) (user.addLiked id)) := by
  obtain ⟨-, hvid⟩ := findById_some hv
  unfold videos.like
  rw [hv, hu]
  simp only [hvid, contains_of_not_mem hl, Bool.not_false, if_true]
  by_cases hd : id ∈ user.dislikedVideos
  · simp [contains_of_mem hd, User.addLiked, Video.addLiked, hvid, hd]
  · simp [contains_of_not_mem hd, User.addLiked, Video.addLiked, hvid, hd, without_eq_self hd]

theorem like_of_mem {db : DB} {username : String} {id : ObjectId} {user : User}
    {video : Video} (hu : findOne db.users username = some user)
    (hv : findById db.videos id = some video) (hl : id ∈ user.likedVideos) :
    videos.like db username id =
      (reply 200 "Video unliked successfully",
        saveUser (saveVideo db video.dropLiked) (user.dropLiked id)) := by
  obtain ⟨-, hvid⟩ := findById_some hv
  unfold videos.like
  rw [hv, hu]
  simp [hvid, hl, User.dropLiked, Video.dropLiked]

theorem dislike_of_not_mem {db : DB} {username : String} {id : ObjectId} {user : User}
    {video : Video} (hu : findOne db.users username = some user)
    (hv : findById db.videos id = some video) (hd : id ∉ user.dislikedVideos) :
    videos.dislike db username id =
      (reply 200 "Video disliked successfully",
        saveUser (saveVideo db (video.addDisliked user)) (user.addDisliked id)) := by
  obtain ⟨-, hvid⟩ := findById_some hv
  unfold videos.dislike
  rw [hv, hu]
  simp only [hvid, contains_of_not_mem hd, Bool.not_false, if_true]
  by_cases hl : id ∈ user.likedVideos
  · simp [contains_of_mem hl, User.addDisliked, Video.addDisliked, hvid, hl]
  · simp [contains_of_not_mem hl, User.addDisliked, Video.addDisliked, hvid, hl,
      without_eq_self hl]

theorem dislike_of_mem {db : DB} {username : String} {id : ObjectId} {user : User}
    {video : Video} (hu : findOne db.users username = some user)
    (hv : findById db.videos id = some video) (hd : id ∈ user.dislikedVideos) :
    videos.dislike db username id =
      (reply 200 "Video dislike removed successfully",
        saveUser (saveVideo db video.dropDisliked) (user.dropDisliked id)) := by
  obtain ⟨-, hvid⟩ := findById_some hv
  unfold videos.dislike
  rw [hv, hu]
  simp [hvid, hd, User.dropDisliked, Video.dropDisliked]


theorem like_of_no_video {db : DB} {username : String} {id : ObjectId}
    (hv : findById db.videos id = none) :
    videos.like db username id = (reply 404 "Video not found", db) := by
  unfold videos.like
  rw [hv]

theorem like_of_no_user {db : DB} {username : String} {id : ObjectId} {video : Video}
    (hv : findById db.videos id = some video) (hu : findOne db.users username = none) :
    videos.like db username id = (reply 404 "User not found", db) := by
  unfold videos.like
  rw [hv, hu]

theorem dislike_of_no_video {db : DB} {username : String} {id : ObjectId}
    (hv : findById db.videos id = none) :
    videos.dislike db username id = (reply 404 "Video not found", db) := by
  unfold videos.dislike
  rw [hv]

theorem dislike_of_no_user {db : DB} {username : String} {id : ObjectId} {video : Video}
    (hv : findById db.videos id = some video) (hu : findOne db.users username = none) :
    videos.dislike db username id = (reply 404 "User not found", db) := by
  unfold videos.dislike
  rw [hv, hu]


/-- The user stored by a handler is the one a following request reads. -/
theorem findOne_stored {db : DB} {username : String} {user : User}
    (hu : findOne db.users username = some user) (U : User) (V : Video)
    (hid : U._id = user._id) (hname : U.username = user.username) :
    findOne (saveUser (saveVideo db V) U).users username = some U :=
  @findOne_saveUser (saveVideo db V) username user U hu hid (hname.trans (findOne_some hu).2)

/-- The video stored by a handler is the one a following request reads. -/
theorem findById_stored {db : DB} {id : ObjectId} {video : Video}
    (hv : findById db.videos id = some video) (U : User) (V : Video)
    (hid : V._id = video._id) :
    findById (saveUser (saveVideo db V) U).videos id = some V :=
  @findById_saveVideo db id video V hv (hid.trans (findById_some hv).2)

/-! ## C1: the like toggle -/

/-- C1. For an existing user and an existing video `id`, the like toggle answers
200 and stores exactly this: when `id` is not in `likedVideos` it is appended and
`likes` grows by one, and `id` is removed from `dislikedVideos` with `dislikes`
set to `max 0 (dislikes - 1)` if it was there (both untouched otherwise); when
`id` is in `likedVideos` every occurrence is removed, `likes` becomes
`max 0 (likes - 1)` and `dislikedVideos` and `dislikes` stay as they were.  No
other field of the two documents changes. -/
theorem like_toggle_effect (db : DB) (username : String) (id : ObjectId)
    (user : User) (video : Video)
    (hu : findOne db.users username = some user)
    (hv : findById db.videos id = some video) :
    (videos.like db username id).1.status = 200 ∧
    ∃ user1 video1,
      findOne (videos.like db username id).2.users username = some user1 ∧
      findById (videos.like db username id).2.videos id = some video1 ∧
      user1 = { user with likedVideos := user1.likedVideos,
                          dislikedVideos := user1.dislikedVideos } ∧
      video1 = { video with likes := video1.likes, dislikes := video1.dislikes } ∧
      (id ∉ user.likedVideos →
        user1.likedVideos = user.likedVideos ++ [id] ∧ video1.likes = video.likes + 1 ∧
        (id ∈ user.dislikedVideos →
          user1.dislikedVideos = user.dislikedVideos.filter (fun x => x ≠ id) ∧
          video1.dislikes = max 0 (video.dislikes - 1)) ∧
        (id ∉ user.dislikedVideos →
          user1.dislikedVideos = user.dislikedVideos ∧ video1.dislikes = video.dislikes)) ∧
      (id ∈ user.likedVideos →
        user1.likedVideos = user.likedVideos.filter (fun x => x ≠ id) ∧
        video1.likes = max 0 (video.likes - 1) ∧
        user1.dislikedVideos = user.dislikedVideos ∧ video1.dislikes = video.dislikes) := by
  obtain ⟨-, hvid⟩ := findById_some hv
  obtain ⟨-, hun⟩ := findOne_some hu
  unfold videos.like
  rw [hv, hu]
  simp only [hvid]
  by_cases hl : id ∈ user.likedVideos
  · simp only [contains_of_mem hl, Bool.not_true, Bool.false_eq_true, if_false]
    refine ⟨rfl, _, _, @findOne_saveUser _ _ user _ hu rfl hun,
      @findById_saveVideo _ _ video _ hv rfl, ?_⟩
    simp [without_eq_filter, hl]
  · by_cases hd : id ∈ user.dislikedVideos
    · simp only [contains_of_not_mem hl, contains_of_mem hd, Bool.not_false, if_true]
      refine ⟨rfl, _, _, @findOne_saveUser _ _ user _ hu rfl hun,
        @findById_saveVideo _ _ video _ hv rfl, ?_⟩
      simp [without_eq_filter, hl, hd]
    · simp only [contains_of_not_mem hl, contains_of_not_mem hd, Bool.not_false, if_true,
        Bool.false_eq_true, if_false]
      refine ⟨rfl, _, _, @findOne_saveUser _ _ user _ hu rfl hun,
        @findById_saveVideo _ _ video _ hv rfl, ?_⟩
      simp [hl, hd]

/-- Witness of C1 on a store whose user dislikes the video. -/
theorem like_toggle_effect_witness :
    findOne dbDisliked.users "u" = some
      { _id := 7, username := "u", playlists := [], likedVideos := [],
        dislikedVideos := [1], watchLater := [], history := [] } ∧
    findById dbDisliked.videos 1 = some
      { _id := 1, likes := 0, dislikes := 1, uploadedBy := none, views := 0, comments := [] } ∧
    (videos.like dbDisliked "u" 1).1.status = 200 :=
  ⟨by decide, by decide,
    (like_toggle_effect dbDisliked "u" 1
      { _id := 7, username := "u", playlists := [], likedVideos := [],
        dislikedVideos := [1], watchLater := [], history := [] }
      { _id := 1, likes := 0, dislikes := 1, uploadedBy := none, views := 0, comments := [] }
      (by decide) (by decide)).1⟩

/-! ## Request strings against stored ids -/

theorem includes_eq (arr : List ObjectId) (s : IdString) :
    includes arr s = (s.canonical && arr.contains s.id) := by
  unfold includes IdString.isStringOf
  induction arr with
  | nil => simp
  | cons x xs ih =>
    have e : (x == s.id) = (s.id == x) := by
      by_cases h : x = s.id
      · rw [h]
      · have h1 : ¬ s.id = x := fun e => h e.symm
        simp [h, h1]
    rw [List.any_cons, ih, List.contains_cons, e]
    cases s.canonical <;> simp

theorem includes_lowerHex (arr : List ObjectId) (id : ObjectId) :
    includes arr (lowerHex id) = arr.contains id := by
  rw [includes_eq]
  rfl

theorem includes_upperHex (arr : List ObjectId) (id : ObjectId) :
    includes arr (upperHex id) = false := by
  rw [includes_eq]
  rfl

theorem withoutString_lowerHex (arr : List ObjectId) (id : ObjectId) :
    withoutString arr (lowerHex id) = without arr id := rfl

theorem withoutString_upperHex (arr : List ObjectId) (id : ObjectId) :
    withoutString arr (upperHex id) = arr := by
  unfold withoutString upperHex IdString.isStringOf
  simp

/-! ## C2: mutual exclusion after a successful add -/

/-- C2. A user who dislikes video `10` adds it to the liked videos with the id
spelled `...0A`: the request is answered 200 and the stored user holds the video
in both `likedVideos` and `dislikedVideos`, so is not exclusive.  The same
request with the id spelled `...0a` takes it out of `dislikedVideos`. -/
theorem respelled_add_breaks_exclusion :
    (findOne (run dbTen [Op.dislikedAdd "u" (some (lowerHex 10))]).users "u").map
      (fun u => (u.likedVideos, u.dislikedVideos)) = some ([], [10]) ∧
    (step (run dbTen [Op.dislikedAdd "u" (some (lowerHex 10))])
      (Op.likedAdd "u" (some (upperHex 10)))).1.status = 200 ∧
    (findOne (run dbTen [Op.dislikedAdd "u" (some (lowerHex 10)),
        Op.likedAdd "u" (some (upperHex 10))]).users "u").map
      (fun u => (u.likedVideos, u.dislikedVideos)) = some ([10], [10]) ∧
    (findOne (run dbTen [Op.dislikedAdd "u" (some (lowerHex 10)),
        Op.likedAdd "u" (some (lowerHex 10))]).users "u").map
      (fun u => (u.likedVideos, u.dislikedVideos)) = some ([10], []) ∧
    (∃ user1, findOne (run dbTen [Op.dislikedAdd "u" (some (lowerHex 10)),
        Op.likedAdd "u" (some (upperHex 10))]).users "u" = some user1 ∧
      ¬ user1.exclusive) :=
  ⟨by decide, by decide, by decide, by decide,
    { _id := 7, username := "u", playlists := [], likedVideos := [10],
      dislikedVideos := [10], watchLater := [], history := [] },
    by decide, fun h => h 10 ⟨by decide, by decide⟩⟩

/-! ## C3 and C5: the routes that leave the coordinator out -/

/-- C3. From a fresh user, a dislike toggle followed by the add-to-favorites
route leaves video `1` in both `likedVideos` and `dislikedVideos`. -/
theorem favorite_breaks_exclusion :
    findOne (run db0 [Op.dislike "u" 1, Op.favorite "u" (lowerHex 1)]).users "u" = some
      { _id := 7, username := "u", playlists := [], likedVideos := [1],
        dislikedVideos := [1], watchLater := [], history := [] } := by
  decide

/-- C5. From a fresh store, a like followed by clearing the liked videos leaves
`likes = 1` with no user holding the video, and the add-to-favorites route alone
leaves `likes = 0` with one user holding it. -/
theorem clear_and_favorite_break_counters :
    (findById (run db0 [Op.like "u" 1, Op.likedClear "u"]).videos 1).map (fun v => v.likes)
        = some 1 ∧
      likeCount (run db0 [Op.like "u" 1, Op.likedClear "u"]) 1 = 0 ∧
    (findById (run db0 [Op.favorite "u" (lowerHex 1)]).videos 1).map (fun v => v.likes)
        = some 0 ∧
      likeCount (run db0 [Op.favorite "u" (lowerHex 1)]) 1 = 1 := by
  decide

/-! ## C4: the counters after a coordinated add -/

/-- C4. After a first add-to-liked of video `10` the counters and the membership
counts agree (`likes = 1`, one user holds the video).  A second add-to-liked by
the same user, with the id spelled `...0A`, is answered 200 and leaves
`likes = 2` while still one user holds the video: the counters are no longer
consistent. -/
theorem respelled_add_breaks_counters :
    countersConsistent (run dbTen [Op.likedAdd "u" (some (lowerHex 10))]) 10 ∧
    (step (run dbTen [Op.likedAdd "u" (some (lowerHex 10))])
      (Op.likedAdd "u" (some (upperHex 10)))).1.status = 200 ∧
    (findById (run dbTen [Op.likedAdd "u" (some (lowerHex 10)),
        Op.likedAdd "u" (some (upperHex 10))]).videos 10).map
      (fun v => (v.likes, v.dislikes)) = some (2, 0) ∧
    likeCount (run dbTen [Op.likedAdd "u" (some (lowerHex 10)),
        Op.likedAdd "u" (some (upperHex 10))]) 10 = 1 ∧
    ¬ countersConsistent (run dbTen [Op.likedAdd "u" (some (lowerHex 10)),
        Op.likedAdd "u" (some (upperHex 10))]) 10 := by
  refine ⟨?_, by decide, by decide, by decide, ?_⟩
  · intro video hf
    have e : findById (run dbTen [Op.likedAdd "u" (some (lowerHex 10))]).videos 10 = some
        { _id := 10, likes := 1, dislikes := 0, uploadedBy := none, views := 0,
          comments := [] } := by decide
    rw [e] at hf
    cases hf
    decide
  · intro h
    have h1 := (h
      { _id := 10, likes := 2, dislikes := 0, uploadedBy := none, views := 0,
        comments := [] }
      (by decide)).1
    revert h1
    decide

/-! ## C6: the counter floor -/

theorem nonnegAt_saveVideo {db : DB} {id : ObjectId} {video : Video} (V : Video)
    (w : ObjectId) (hv : findById db.videos id = some video) (hVid : V._id = video._id)
    (hV : 0 ≤ video.likes ∧ 0 ≤ video.dislikes → 0 ≤ V.likes ∧ 0 ≤ V.dislikes)
    (h : countersNonnegAt db w) : countersNonnegAt (saveVideo db V) w := by
  intro vid hfind
  have hvid := (findById_some hv).2
  by_cases hw : w = id
  · subst hw
    rw [findById_saveVideo hv (hVid.trans hvid)] at hfind
    cases hfind
    exact hV (h video hv)
  · have hne : V._id ≠ w := by
      rw [hVid, hvid]; exact fun e => hw e.symm
    rw [findById_saveVideo_ne db hne] at hfind
    exact h vid hfind

theorem nonnegAt_of_videos_eq {db db1 : DB} (e : db1.videos = db.videos) (w : ObjectId)
    (h : countersNonnegAt db w) : countersNonnegAt db1 w := by
  intro vid hfind
  rw [e] at hfind
  exact h vid hfind

theorem nonnegAt_stored {db : DB} {id : ObjectId} {video : Video} (U : User) (V : Video)
    (w : ObjectId) (hv : findById db.videos id = some video) (hVid : V._id = video._id)
    (hV : 0 ≤ video.likes ∧ 0 ≤ video.dislikes → 0 ≤ V.likes ∧ 0 ≤ V.dislikes)
    (h : countersNonnegAt db w) : countersNonnegAt (saveUser (saveVideo db V) U) w :=
  nonnegAt_of_videos_eq (saveUser_videos _ U) w (nonnegAt_saveVideo V w hv hVid hV h)

theorem nonnegAt_saved {db : DB} {id : ObjectId} {video : Video} (U : User) (V : Video)
    (w : ObjectId) (hv : findById db.videos id = some video) (hVid : V._id = video._id)
    (hV : 0 ≤ video.likes ∧ 0 ≤ video.dislikes → 0 ≤ V.likes ∧ 0 ≤ V.dislikes)
    (h : countersNonnegAt db w) : countersNonnegAt (saveVideo (saveUser db U) V) w :=
  nonnegAt_stored U V w hv hVid hV h

theorem likedAdd_nonneg (db : DB) (username : String) (videoId : Option IdString)
    (w : ObjectId) (h : countersNonnegAt db w) :
    countersNonnegAt (likedvideos.add db username videoId).2 w := by
  unfold likedvideos.add
  cases hu : findOne db.users username with
  | none => exact h
  | some user =>
    cases videoId with
    | none => exact h
    | some s =>
      cases hv : findById db.videos s.id with
      | none => simp only [hv]; exact h
      | some video =>
        simp only [hv]
        by_cases hl : includes user.likedVideos s = true
        · rw [if_pos hl]; exact h
        · rw [if_neg hl]
          refine nonnegAt_saved _ _ w hv ?_ ?_ h
          · split <;> rfl
          · intro hn
            by_cases hd : includes user.dislikedVideos s = true
            · simp only [hd, if_true]
              exact ⟨by omega, le_max_left _ _⟩
            · simp only [hd, if_false, Bool.false_eq_true]
              exact ⟨by omega, hn.2⟩

theorem dislikedAdd_nonneg (db : DB) (username : String) (videoId : Option IdString)
    (w : ObjectId) (h : countersNonnegAt db w) :
    countersNonnegAt (dislikedvideos.add db username videoId).2 w := by
  unfold dislikedvideos.add
  cases hu : findOne db.users username with
  | none => exact h
  | some user =>
    cases videoId with
    | none => exact h
    | some s =>
      cases hv : findById db.videos s.id with
      | none => simp only [hv]; exact h
      | some video =>
        simp only [hv]
        by_cases hd : includes user.dislikedVideos s = true
        · rw [if_pos hd]; exact h
        · rw [if_neg hd]
          refine nonnegAt_saved _ _ w hv ?_ ?_ h
          · split <;> rfl
          · intro hn
            by_cases hl : includes user.likedVideos s = true
            · simp only [hl, if_true]
              exact ⟨le_max_left _ _, by omega⟩
            · simp only [hl, if_false, Bool.false_eq_true]
              exact ⟨hn.1, by omega⟩

theorem likedRemove_nonneg (db : DB) (username : String) (videoId : IdString)
    (w : ObjectId) (h : countersNonnegAt db w) :
    countersNonnegAt (likedvideos.remove db username videoId).2 w := by
  unfold likedvideos.remove
  cases hu : findOne db.users username with
  | none => exact h
  | some user =>
    simp only []
    by_cases hl : (!includes user.likedVideos videoId) = true
    · rw [if_pos hl]; exact h
    · rw [if_neg hl]
      cases hv : findById db.videos videoId.id with
      | none => exact nonnegAt_of_videos_eq rfl w h
      | some video =>
        exact nonnegAt_stored _ _ w hv rfl (fun hn => ⟨le_max_left _ _, hn.2⟩) h

theorem dislikedRemove_nonneg (db : DB) (username : String) (videoId : IdString)
    (w : ObjectId) (h : countersNonnegAt db w) :
    countersNonnegAt (dislikedvideos.remove db username videoId).2 w := by
  unfold dislikedvideos.remove
  cases hu : findOne db.users username with
  | none => exact h
  | some user =>
    simp only []
    by_cases hd : (!includes user.dislikedVideos videoId) = true
    · rw [if_pos hd]; exact h
    · rw [if_neg hd]
      cases hv : findById db.videos videoId.id with
      | none => exact nonnegAt_of_videos_eq rfl w h
      | some video =>
        exact nonnegAt_stored _ _ w hv rfl (fun hn => ⟨hn.1, le_max_left _ _⟩) h

theorem addLiked_nonneg (video : Video) (user : User)
    (h : 0 ≤ video.likes ∧ 0 ≤ video.dislikes) :
    0 ≤ (video.addLiked user).likes ∧ 0 ≤ (video.addLiked user).dislikes := by
  unfold Video.addLiked
  constructor
  · show 0 ≤ video.likes + 1
    omega
  · show 0 ≤ (if video._id ∈ user.dislikedVideos then max 0 (video.dislikes - 1)
      else video.dislikes)
    split
    · exact le_max_left _ _
    · exact h.2

theorem addDisliked_nonneg (video : Video) (user : User)
    (h : 0 ≤ video.likes ∧ 0 ≤ video.dislikes) :
    0 ≤ (video.addDisliked user).likes ∧ 0 ≤ (video.addDisliked user).dislikes := by
  unfold Video.addDisliked
  constructor
  · show 0 ≤ (if video._id ∈ user.likedVideos then max 0 (video.likes - 1) else video.likes)
    split
    · exact le_max_left _ _
    · exact h.1
  · show 0 ≤ video.dislikes + 1
    omega

theorem dropLiked_nonneg (video : Video) (h : 0 ≤ video.likes ∧ 0 ≤ video.dislikes) :
    0 ≤ video.dropLiked.likes ∧ 0 ≤ video.dropLiked.dislikes :=
  ⟨le_max_left _ _, h.2⟩

theorem dropDisliked_nonneg (video : Video) (h : 0 ≤ video.likes ∧ 0 ≤ video.dislikes) :
    0 ≤ video.dropDisliked.likes ∧ 0 ≤ video.dropDisliked.dislikes :=
  ⟨h.1, le_max_left _ _⟩

/-- The requests outside the coordinator never write a video document. -/
theorem step_videos_of_not_coordinated (db : DB) (op : Op) (hop : op.coordinated = false) :
    (step db op).2.videos = db.videos := by
  cases op with
  | likedClear u =>
    show (likedvideos.clear db u).2.videos = db.videos
    unfold likedvideos.clear
    cases findOne db.users u <;> rfl
  | dislikedClear u =>
    show (dislikedvideos.clear db u).2.videos = db.videos
    unfold dislikedvideos.clear
    cases findOne db.users u <;> rfl
  | watchClear u =>
    show (watchlater.clear db u).2.videos = db.videos
    unfold watchlater.clear
    cases findOne db.users u <;> rfl
  | favorite u v =>
    show (videos.favorite db u v).2.videos = db.videos
    unfold videos.favorite
    cases findOne db.users u <;> rfl
  | watchAdd u v =>
    show (watchlater.add db u v).2.videos = db.videos
    unfold watchlater.add
    cases hu : findOne db.users u with
    | none => rfl
    | some user =>
      cases v with
      | none => rfl
      | some s =>
        cases hv : findById db.videos s.id with
        | none => simp only [hv]
        | some video =>
          simp only [hv]
          split <;> rfl
  | watchRemove u v =>
    show (watchlater.remove db u v).2.videos = db.videos
    unfold watchlater.remove
    cases hu : findOne db.users u with
    | none => rfl
    | some user =>
      simp only []
      split <;> rfl
  | like _ _ => simp [Op.coordinated] at hop
  | dislike _ _ => simp [Op.coordinated] at hop
  | likedAdd _ _ => simp [Op.coordinated] at hop
  | likedRemove _ _ => simp [Op.coordinated] at hop
  | dislikedAdd _ _ => simp [Op.coordinated] at hop
  | dislikedRemove _ _ => simp [Op.coordinated] at hop

/-- One request of any kind keeps the counters of `w` non-negative. -/
theorem nonnegAt_step (db : DB) (op : Op) (w : ObjectId) (h : countersNonnegAt db w) :
    countersNonnegAt (step db op).2 w := by
  cases hop : op.coordinated with
  | false => exact nonnegAt_of_videos_eq (step_videos_of_not_coordinated db op hop) w h
  | true =>
    cases op with
    | like username id =>
      show countersNonnegAt (videos.like db username id).2 w
      cases hv : findById db.videos id with
      | none => rw [like_of_no_video hv]; exact h
      | some video =>
        cases hu : findOne db.users username with
        | none => rw [like_of_no_user hv hu]; exact h
        | some user =>
          by_cases hl : id ∈ user.likedVideos
          · rw [like_of_mem hu hv hl]
            exact nonnegAt_stored _ _ w hv rfl (dropLiked_nonneg video) h
          · rw [like_of_not_mem hu hv hl]
            exact nonnegAt_stored _ _ w hv rfl (addLiked_nonneg video user) h
    | dislike username id =>
      show countersNonnegAt (videos.dislike db username id).2 w
      cases hv : findById db.videos id with
      | none => rw [dislike_of_no_video hv]; exact h
      | some video =>
        cases hu : findOne db.users username with
        | none => rw [dislike_of_no_user hv hu]; exact h
        | some user =>
          by_cases hd : id ∈ user.dislikedVideos
          · rw [dislike_of_mem hu hv hd]
            exact nonnegAt_stored _ _ w hv rfl (dropDisliked_nonneg video) h
          · rw [dislike_of_not_mem hu hv hd]
            exact nonnegAt_stored _ _ w hv rfl (addDisliked_nonneg video user) h
    | likedAdd username videoId => exact likedAdd_nonneg db username videoId w h
    | dislikedAdd username videoId => exact dislikedAdd_nonneg db username videoId w h
    | likedRemove username id => exact likedRemove_nonneg db username id w h
    | dislikedRemove username id => exact dislikedRemove_nonneg db username id w h
    | likedClear _ => simp [Op.coordinated] at hop
    | dislikedClear _ => simp [Op.coordinated] at hop
    | watchAdd _ _ => simp [Op.coordinated] at hop
    | watchRemove _ _ => simp [Op.coordinated] at hop
    | watchClear _ => simp [Op.coordinated] at hop
    | favorite _ _ => simp [Op.coordinated] at hop

theorem run_cons (db : DB) (op : Op) (ops : List Op) :
    run db (op :: ops) = run (step db op).2 ops := rfl

/-- C6. If the `likes` and `dislikes` of a video are non-negative integers, they
are still non-negative after any sequence of requests (like and dislike
toggles, liked / disliked add and remove, and every other request of the
relation routers), so no number of repeated removes or toggle-offs drives a
counter below 0. -/
theorem counters_nonneg_run (db : DB) (ops : List Op) (w : ObjectId)
    (h : countersNonnegAt db w) : countersNonnegAt (run db ops) w := by
  induction ops generalizing db with
  | nil => exact h
  | cons op ops ih =>
    rw [run_cons]
    exact ih _ (nonnegAt_step db op w h)


/-- Witness of C6: removes and toggle-offs on a counter that already reads 0. -/
theorem counters_nonneg_run_witness :
    countersNonnegAt dbZero 1 ∧
    countersNonnegAt
      (run dbZero [Op.likedRemove "u" (lowerHex 1), Op.like "u" 1, Op.like "u" 1,
        Op.dislike "u" 1, Op.dislikedRemove "u" (lowerHex 1),
        Op.dislikedRemove "u" (lowerHex 1)]) 1 :=
  have h : countersNonnegAt dbZero 1 := by
    intro video hf
    have e : findById dbZero.videos 1 = some
        { _id := 1, likes := 0, dislikes := 0, uploadedBy := none, views := 0,
          comments := [] } := by decide
    rw [e] at hf
    cases hf
    decide
  ⟨h, counters_nonneg_run dbZero _ 1 h⟩

/-! ## C7 to C11: Add and Remove with an id spelled in upper case

The add routes test `includes(videoId)` and the remove routes `!includes(videoId)`
on the string of the request, so a held video whose id the request spells with an
upper-case digit counts as absent. -/

/-- C7. With video `10` already in the relation, an add request that spells the
id `...0A` is answered 200 by each of the three add routes and appends the id a
second time (for the liked videos `likes` becomes 2); spelled `...0a` the same
request is answered 400 and changes nothing. -/
theorem respelled_add_not_rejected :
    ((likedvideos.add (likedvideos.add dbTen "u" (some (lowerHex 10))).2 "u"
        (some (upperHex 10))).1.status = 200 ∧
      (findOne (likedvideos.add (likedvideos.add dbTen "u" (some (lowerHex 10))).2 "u"
        (some (upperHex 10))).2.users "u").map (fun u => u.likedVideos) = some [10, 10] ∧
      (findById (likedvideos.add (likedvideos.add dbTen "u" (some (lowerHex 10))).2 "u"
        (some (upperHex 10))).2.videos 10).map (fun v => v.likes) = some 2) ∧
    ((dislikedvideos.add (dislikedvideos.add dbTen "u" (some (lowerHex 10))).2 "u"
        (some (upperHex 10))).1.status = 200 ∧
      (findOne (dislikedvideos.add (dislikedvideos.add dbTen "u" (some (lowerHex 10))).2 "u"
        (some (upperHex 10))).2.users "u").map (fun u => u.dislikedVideos) = some [10, 10]) ∧
    ((watchlater.add (watchlater.add dbTen "u" (some (lowerHex 10))).2 "u"
        (some (upperHex 10))).1.status = 200 ∧
      (findOne (watchlater.add (watchlater.add dbTen "u" (some (lowerHex 10))).2 "u"
        (some (upperHex 10))).2.users "u").map (fun u => u.watchLater) = some [10, 10]) ∧
    ((likedvideos.add (likedvideos.add dbTen "u" (some (lowerHex 10))).2 "u"
        (some (lowerHex 10))).1.status = 400 ∧
      (likedvideos.add (likedvideos.add dbTen "u" (some (lowerHex 10))).2 "u"
        (some (lowerHex 10))).2 = (likedvideos.add dbTen "u" (some (lowerHex 10))).2) := by
  decide

/-- C8. The same add-to-liked request, with the id of video `10` spelled
`...0A`, sent twice: both are answered 200, the id is stored twice and `likes`
goes from 1 to 2; the same holds for the watch-later route. -/
theorem respelled_add_twice_accepted :
    (likedvideos.add dbTen "u" (some (upperHex 10))).1.status = 200 ∧
    (findById (likedvideos.add dbTen "u" (some (upperHex 10))).2.videos 10).map
      (fun v => v.likes) = some 1 ∧
    (likedvideos.add (likedvideos.add dbTen "u" (some (upperHex 10))).2 "u"
      (some (upperHex 10))).1.status = 200 ∧
    (findOne (likedvideos.add (likedvideos.add dbTen "u" (some (upperHex 10))).2 "u"
      (some (upperHex 10))).2.users "u").map (fun u => u.likedVideos) = some [10, 10] ∧
    (findById (likedvideos.add (likedvideos.add dbTen "u" (some (upperHex 10))).2 "u"
      (some (upperHex 10))).2.videos 10).map (fun v => v.likes) = some 2 ∧
    (watchlater.add (watchlater.add dbTen "u" (some (upperHex 10))).2 "u"
      (some (upperHex 10))).1.status = 200 ∧
    (findOne (watchlater.add (watchlater.add dbTen "u" (some (upperHex 10))).2 "u"
      (some (upperHex 10))).2.users "u").map (fun u => u.watchLater) = some [10, 10] := by
  decide

/-- C9. Scenario A on the fresh video `10` (likes 0, dislikes 0) with the id
spelled `...0A` in every request: the first add-to-liked gives `likes = 1`; the
second is answered 200 and gives `likes = 2`; the add-to-disliked that follows
is answered 200 and leaves `likes = 2`, `dislikes = 1`, with the video still in
`likedVideos`. -/
theorem scenario_A_respelled :
    (findById (run dbTen [Op.likedAdd "u" (some (upperHex 10))]).videos 10).map
      (fun v => (v.likes, v.dislikes)) = some (1, 0) ∧
    (step (run dbTen [Op.likedAdd "u" (some (upperHex 10))])
      (Op.likedAdd "u" (some (upperHex 10)))).1.status = 200 ∧
    (findById (run dbTen [Op.likedAdd "u" (some (upperHex 10)),
        Op.likedAdd "u" (some (upperHex 10))]).videos 10).map
      (fun v => (v.likes, v.dislikes)) = some (2, 0) ∧
    (step (run dbTen [Op.likedAdd "u" (some (upperHex 10)),
        Op.likedAdd "u" (some (upperHex 10))])
      (Op.dislikedAdd "u" (some (upperHex 10)))).1.status = 200 ∧
    (findById (run dbTen [Op.likedAdd "u" (some (upperHex 10)),
        Op.likedAdd "u" (some (upperHex 10)),
        Op.dislikedAdd "u" (some (upperHex 10))]).videos 10).map
      (fun v => (v.likes, v.dislikes)) = some (2, 1) ∧
    (findOne (run dbTen [Op.likedAdd "u" (some (upperHex 10)),
        Op.likedAdd "u" (some (upperHex 10)),
        Op.dislikedAdd "u" (some (upperHex 10))]).users "u").map
      (fun u => (u.likedVideos, u.dislikedVideos)) = some ([10, 10], [10]) := by
  decide

/-- C10. With video `10` in the relation, a remove request that spells the id
`...0A` is answered 400 by each of the three remove routes and removes nothing;
spelled `...0a` it is answered 200 and the video is removed. -/
theorem respelled_remove_rejected :
    (likedvideos.remove (likedvideos.add dbTen "u" (some (lowerHex 10))).2 "u" (upperHex 10)
      = (reply 400 "Video is not in liked videos",
          (likedvideos.add dbTen "u" (some (lowerHex 10))).2)) ∧
    (dislikedvideos.remove (dislikedvideos.add dbTen "u" (some (lowerHex 10))).2 "u"
        (upperHex 10)
      = (reply 400 "Video is not in disliked videos",
          (dislikedvideos.add dbTen "u" (some (lowerHex 10))).2)) ∧
    (watchlater.remove (watchlater.add dbTen "u" (some (lowerHex 10))).2 "u" (upperHex 10)
      = (reply 400 "Video is not in watch later",
          (watchlater.add dbTen "u" (some (lowerHex 10))).2)) ∧
    (findOne (likedvideos.add dbTen "u" (some (lowerHex 10))).2.users "u").map
      (fun u => u.likedVideos) = some [10] ∧
    (likedvideos.remove (likedvideos.add dbTen "u" (some (lowerHex 10))).2 "u"
      (lowerHex 10)).1.status = 200 ∧
    (findOne (likedvideos.remove (likedvideos.add dbTen "u" (some (lowerHex 10))).2 "u"
      (lowerHex 10)).2.users "u").map (fun u => u.likedVideos) = some [] := by
  decide

/-- C11. From a user with empty arrays, adding video `10` with the id spelled
`...0a` and then `...0A` stores the id twice, through add-to-liked, through
add-to-disliked, through watch later and through the add-to-favorites route; the
arrays, free of duplicates before, are not afterwards. -/
theorem respelled_add_stores_duplicate :
    relationsUnique dbTen ∧
    (findOne (run dbTen [Op.likedAdd "u" (some (lowerHex 10)),
        Op.likedAdd "u" (some (upperHex 10))]).users "u").map
      (fun u => u.likedVideos) = some [10, 10] ∧
    (findOne (run dbTen [Op.dislikedAdd "u" (some (lowerHex 10)),
        Op.dislikedAdd "u" (some (upperHex 10))]).users "u").map
      (fun u => u.dislikedVideos) = some [10, 10] ∧
    (findOne (run dbTen [Op.watchAdd "u" (some (lowerHex 10)),
        Op.watchAdd "u" (some (upperHex 10))]).users "u").map
      (fun u => u.watchLater) = some [10, 10] ∧
    (findOne (run dbTen [Op.favorite "u" (lowerHex 10),
        Op.favorite "u" (upperHex 10)]).users "u").map
      (fun u => u.likedVideos) = some [10, 10] ∧
    ¬ relationsUnique (run dbTen [Op.likedAdd "u" (some (lowerHex 10)),
        Op.likedAdd "u" (some (upperHex 10))]) := by
  refine ⟨?_, by decide, by decide, by decide, by decide, ?_⟩
  · intro u hu
    simp only [dbTen, List.mem_singleton] at hu
    subst hu
    exact ⟨List.nodup_nil, List.nodup_nil, List.nodup_nil⟩
  · intro h
    have h1 := (h
      { _id := 7, username := "u", playlists := [], likedVideos := [10, 10],
        dislikedVideos := [], watchLater := [], history := [] }
      (by decide)).1
    revert h1
    decide

/-! ## C12: Clear -/

/-- Saving a user leaves every document with another `_id` as it was. -/
theorem saveUser_others (db : DB) (U : User) :
    (saveUser db U).users.filter (fun x => x._id != U._id) =
      db.users.filter (fun x => x._id != U._id) := by
  unfold saveUser
  simp only
  induction db.users with
  | nil => rfl
  | cons x xs ih =>
    rw [List.map_cons]
    by_cases hi : (x._id == U._id) = true
    · have hU : (U._id != U._id) = false := by simp
      have hx : (x._id != U._id) = false := by simp [bne, hi]
      rw [if_pos hi, List.filter_cons, List.filter_cons]
      simp only [hU, hx, Bool.false_eq_true, if_false]
      exact ih
    · have hx : (x._id != U._id) = true := by simpa [bne] using hi
      rw [if_neg hi, List.filter_cons, List.filter_cons]
      simp only [hx, if_true]
      rw [ih]

/-- C12. For an existing user, each of the three clear routes answers 200
whatever the array holds, reports the number of elements the array held, stores
the user with that array empty and every other field as before, writes no video
document and leaves every other user document as it was. -/
theorem clear_contract (db : DB) (username : String) :
    ClearContract likedvideos.clear User.likedVideos
      (fun u => { u with likedVideos := [] }) " liked videos removed successfully"
      db username ∧
    ClearContract dislikedvideos.clear User.dislikedVideos
      (fun u => { u with dislikedVideos := [] }) " disliked videos removed successfully"
      db username ∧
    ClearContract watchlater.clear User.watchLater
      (fun u => { u with watchLater := [] }) " watch later videos removed successfully"
      db username := by
  refine ⟨?_, ?_, ?_⟩
  · intro user hu
    unfold likedvideos.clear
    rw [hu]
    exact ⟨rfl, rfl, ⟨_, findOne_saveUser hu rfl (findOne_some hu).2, rfl, rfl⟩, rfl,
      saveUser_others db { user with likedVideos := [] }⟩
  · intro user hu
    unfold dislikedvideos.clear
    rw [hu]
    exact ⟨rfl, rfl, ⟨_, findOne_saveUser hu rfl (findOne_some hu).2, rfl, rfl⟩, rfl,
      saveUser_others db { user with dislikedVideos := [] }⟩
  · intro user hu
    unfold watchlater.clear
    rw [hu]
    exact ⟨rfl, rfl, ⟨_, findOne_saveUser hu rfl (findOne_some hu).2, rfl, rfl⟩, rfl,
      saveUser_others db { user with watchLater := [] }⟩

/-- Witness of C12: clearing the four liked videos of `dbLiked`. -/
theorem clear_contract_witness :
    (likedvideos.clear dbLiked "u").1.status = 200 ∧
    (likedvideos.clear dbLiked "u").1.message
      = "All " ++ toString [2, 1, 3, 1].length ++ " liked videos removed successfully" :=
  have h := (clear_contract dbLiked "u").1
    { _id := 7, username := "u", playlists := [], likedVideos := [2, 1, 3, 1],
      dislikedVideos := [], watchLater := [], history := [] } (by decide)
  ⟨h.1, h.2.1⟩

/-! ## C13: playlist Create -/

theorem trim_eq_empty_iff (s : String) : trim s = "" ↔ blank s = true := by
  unfold trim blank
  rw [List.all_eq_true]
  constructor
  · intro h
    have h1 : ((s.data.dropWhile isWhiteSpace).reverse.dropWhile isWhiteSpace).reverse = [] := by
      have := congrArg String.data h
      simpa using this
    have h2 : (s.data.dropWhile isWhiteSpace).reverse.dropWhile isWhiteSpace = [] :=
      List.reverse_eq_nil_iff.mp h1
    have h3 : ∀ x ∈ (s.data.dropWhile isWhiteSpace).reverse, isWhiteSpace x = true :=
      List.dropWhile_eq_nil_iff.mp h2
    have h4 : s.data.dropWhile isWhiteSpace = [] := by
      by_contra hne
      have hh := List.head_dropWhile_not isWhiteSpace s.data hne
      have hm := h3 _ (List.mem_reverse.mpr (List.head_mem hne))
      rw [hm] at hh
      exact absurd hh (by simp)
    exact List.dropWhile_eq_nil_iff.mp h4
  · intro h
    have h4 : s.data.dropWhile isWhiteSpace = [] := List.dropWhile_eq_nil_iff.mpr h
    rw [h4]
    rfl

theorem create_of_no_name {toLowerCase : String → String} {db : DB} {username : String} {user : User} {newId : ObjectId}
    (hu : findOne db.users username = some user) :
    playlists.create toLowerCase db username none newId = (reply 400 "Playlist name is required", db) := by
  unfold playlists.create
  rw [hu]

theorem create_of_blank {toLowerCase : String → String} {db : DB} {username : String} {user : User} {newId : ObjectId}
    {name : String} (hu : findOne db.users username = some user) (hb : trim name = "") :
    playlists.create toLowerCase db username (some name) newId =
      (reply 400 "Playlist name is required", db) := by
  unfold playlists.create
  rw [hu]
  simp [hb]

theorem nonempty_of_trim_ne {name : String} (hb : trim name ≠ "") : name ≠ "" := by
  intro e
  apply hb
  rw [e]
  rfl

theorem create_of_dup {toLowerCase : String → String} {db : DB} {username : String} {user : User} {newId : ObjectId}
    {name : String} {p : Playlist} (hu : findOne db.users username = some user)
    (hb : trim name ≠ "")
    (hf : user.playlists.find? (fun p => toLowerCase p.name == toLowerCase name) = some p) :
    playlists.create toLowerCase db username (some name) newId =
      (reply 400 "A playlist with this name already exists", db) := by
  unfold playlists.create
  rw [hu]
  simp [hb, nonempty_of_trim_ne hb, hf]

theorem create_of_new {toLowerCase : String → String} {db : DB} {username : String} {user : User} {newId : ObjectId}
    {name : String} (hu : findOne db.users username = some user)
    (hb : trim name ≠ "")
    (hf : user.playlists.find? (fun p => toLowerCase p.name == toLowerCase name) = none) :
    playlists.create toLowerCase db username (some name) newId =
      (reply 201 "Playlist created successfully",
        saveUser db { user with playlists :=
          user.playlists ++ [{ _id := newId, name := trim name, videos := [] }] }) := by
  unfold playlists.create
  rw [hu]
  simp [hb, nonempty_of_trim_ne hb, hf]

/-- C13. Playlist create for an existing user, whatever mapping `toLowerCase`
is: a missing, empty or whitespace-only name is answered 400; a name equal under
`toLowerCase` to the name of an existing playlist is answered 400; in both cases
the store is unchanged; otherwise the answer is 201 and the stored user has
exactly one more playlist, appended at the end with an empty `videos`, the
earlier playlists as they were. -/
theorem create_contract (toLowerCase : String → String) (db : DB) (username : String) (user : User) (newId : ObjectId)
    (hu : findOne db.users username = some user) :
    ((playlists.create toLowerCase db username none newId).1.status = 400 ∧
      (playlists.create toLowerCase db username none newId).2 = db) ∧
    (∀ name, blank name = true →
      (playlists.create toLowerCase db username (some name) newId).1.status = 400 ∧
      (playlists.create toLowerCase db username (some name) newId).2 = db) ∧
    (∀ name, (∃ p ∈ user.playlists, toLowerCase p.name = toLowerCase name) →
      (playlists.create toLowerCase db username (some name) newId).1.status = 400 ∧
      (playlists.create toLowerCase db username (some name) newId).2 = db) ∧
    (∀ name, blank name = false →
      (∀ p ∈ user.playlists, toLowerCase p.name ≠ toLowerCase name) →
      (playlists.create toLowerCase db username (some name) newId).1.status = 201 ∧
      ∃ user1, findOne (playlists.create toLowerCase db username (some name) newId).2.users username
          = some user1 ∧
        user1 = { user with playlists := user1.playlists } ∧
        ∃ playlist, user1.playlists = user.playlists ++ [playlist] ∧ playlist.videos = [] ∧
          playlist.name = trim name) := by
  refine ⟨?_, ?_, ?_, ?_⟩
  · rw [create_of_no_name hu]; exact ⟨rfl, rfl⟩
  · intro name hb
    rw [create_of_blank hu ((trim_eq_empty_iff name).mpr hb)]; exact ⟨rfl, rfl⟩
  · intro name ⟨p, hp, he⟩
    by_cases hb : trim name = ""
    · rw [create_of_blank hu hb]; exact ⟨rfl, rfl⟩
    · cases hf : user.playlists.find? (fun p => toLowerCase p.name == toLowerCase name) with
      | none =>
        have := List.find?_eq_none.mp hf p hp
        simp [he] at this
      | some q => rw [create_of_dup hu hb hf]; exact ⟨rfl, rfl⟩
  · intro name hb hn
    have hb1 : trim name ≠ "" := by
      intro e
      rw [(trim_eq_empty_iff name).mp e] at hb
      cases hb
    have hf : user.playlists.find? (fun p => toLowerCase p.name == toLowerCase name) = none := by
      rw [List.find?_eq_none]
      intro p hp
      simpa using hn p hp
    rw [create_of_new hu hb1 hf]
    exact ⟨rfl, _, findOne_saveUser hu rfl (findOne_some hu).2, rfl, _, rfl, rfl, rfl⟩

/-- Witness of C13 (scenario C): "favorites" after "Favorites" is rejected. -/
theorem create_contract_witness :
    findOne (playlists.create toLowerASCII db0 "u" (some "Favorites") 10).2.users "u" = some
      { _id := 7, username := "u", playlists := [{ _id := 10, name := "Favorites", videos := [] }],
        likedVideos := [], dislikedVideos := [], watchLater := [], history := [] } ∧
    (playlists.create toLowerASCII (playlists.create toLowerASCII db0 "u" (some "Favorites") 10).2 "u"
      (some "favorites") 11).1.status = 400 ∧
    (playlists.create toLowerASCII (playlists.create toLowerASCII db0 "u" (some "Favorites") 10).2 "u"
      (some "favorites") 11).2 = (playlists.create toLowerASCII db0 "u" (some "Favorites") 10).2 :=
  ⟨by decide,
    (create_contract toLowerASCII (playlists.create toLowerASCII db0 "u" (some "Favorites") 10).2 "u"
      { _id := 7, username := "u", playlists := [{ _id := 10, name := "Favorites", videos := [] }],
        likedVideos := [], dislikedVideos := [], watchLater := [], history := [] } 11
      (by decide)).2.2.1 "favorites"
      ⟨{ _id := 10, name := "Favorites", videos := [] }, by decide, by decide⟩⟩

/-! ## C14: playlist names under case-insensitive comparison -/

/-- C14. From a user with no playlists, creating "Favorites" and then
" favorites" through the playlist router stores two playlists whose names are
equal under `toLowerCase` (the duplicate check reads the untrimmed name, the
stored name is trimmed); two requests to the legacy create-playlist route with
the same name do so as well (the route has no duplicate check). -/
theorem create_breaks_unique_names :
    (findOne (prun toLowerASCII db0 [PlaylistOp.create "u" (some "Favorites") 10,
        PlaylistOp.create "u" (some " favorites") 11]).users "u").map
      (fun u => u.playlists.map (fun p => toLowerASCII p.name))
      = some ["favorites", "favorites"] ∧
    (findOne (prun toLowerASCII db0 [PlaylistOp.legacyCreate "u" (some "Favorites") 10,
        PlaylistOp.legacyCreate "u" (some "Favorites") 11]).users "u").map
      (fun u => u.playlists.map (fun p => toLowerASCII p.name))
      = some ["favorites", "favorites"] := by
  decide

/-! ## C15: playlist Update -/

/-- C15. Playlist `10` of `dbPlaylists` is named "Favorites".  Renaming it to
"FAVORITES" with the playlist id spelled `...0A` is answered 400 'A playlist
with this name already exists' and changes nothing, the playlist being taken for
another one; with the id spelled `...0a` the rename is answered 200 and stored.
In the store the two creates of C14 leave, the rename of playlist `10` to its
own name "Favorites" is answered 400 as well. -/
theorem respelled_update_rejects_own_name :
    (findPlaylist userPlaylists.playlists 10).map (fun p => p.name) = some "Favorites" ∧
    playlists.update toLowerASCII dbPlaylists "u" (upperHex 10) (some "FAVORITES")
      = (reply 400 "A playlist with this name already exists", dbPlaylists) ∧
    (playlists.update toLowerASCII dbPlaylists "u" (lowerHex 10) (some "FAVORITES")).1.status
      = 200 ∧
    (findOne (playlists.update toLowerASCII dbPlaylists "u" (lowerHex 10)
      (some "FAVORITES")).2.users "u").map (fun u => u.playlists.map (fun p => p.name))
      = some ["FAVORITES", "Later"] ∧
    (playlists.update toLowerASCII
      (prun toLowerASCII db0 [PlaylistOp.create "u" (some "Favorites") 10,
        PlaylistOp.create "u" (some " favorites") 11])
      "u" (lowerHex 10) (some "Favorites")).1.status = 400 := by
  decide

/-! ## C16: AddVideo through either route -/

/-- C16. Playlist `12` of `dbMix` holds `[10, 11]`.  Adding video `10` with the
id spelled `...0A` is answered 200 by both routes and stores `[10, 11, 10]`;
with the id spelled `...0a` both routes answer 400 and change nothing. -/
theorem respelled_add_video_not_rejected :
    (playlists.addVideo dbMix "u" 12 (some (upperHex 10))).1.status = 200 ∧
    (findOne (playlists.addVideo dbMix "u" 12 (some (upperHex 10))).2.users "u").map
      (fun u => u.playlists.map (fun p => p.videos)) = some [[10, 11, 10]] ∧
    (videos.addToPlaylist dbMix "u" (upperHex 10) (some 12)).1.status = 200 ∧
    (findOne (videos.addToPlaylist dbMix "u" (upperHex 10) (some 12)).2.users "u").map
      (fun u => u.playlists.map (fun p => p.videos)) = some [[10, 11, 10]] ∧
    playlists.addVideo dbMix "u" 12 (some (lowerHex 10))
      = (reply 400 "Video is already in this playlist", dbMix) ∧
    videos.addToPlaylist dbMix "u" (lowerHex 10) (some 12)
      = (reply 400 "Video is already in this playlist", dbMix) := by
  decide

/-! ## C17: no playlist holds a video id twice -/

/-- C17. From a user with no playlists: create a playlist, add video `10` with
the id spelled `...0a`, add it again with the id spelled `...0A`.  The playlist
then holds the id twice, whether the second add goes through the playlist router
or through the video router, and invariant I4 no longer holds. -/
theorem respelled_add_video_stores_duplicate :
    (findOne dbTen.users "u").map (fun u => u.playlists) = some [] ∧
    videosUnique dbTen ∧
    (findOne (prun toLowerASCII dbTen [PlaylistOp.create "u" (some "Mix") 12,
        PlaylistOp.addVideo "u" 12 (some (lowerHex 10)),
        PlaylistOp.addVideo "u" 12 (some (upperHex 10))]).users "u").map
      (fun u => u.playlists.map (fun p => p.videos)) = some [[10, 10]] ∧
    (findOne (prun toLowerASCII dbTen [PlaylistOp.create "u" (some "Mix") 12,
        PlaylistOp.addToPlaylist "u" (lowerHex 10) (some 12),
        PlaylistOp.addToPlaylist "u" (upperHex 10) (some 12)]).users "u").map
      (fun u => u.playlists.map (fun p => p.videos)) = some [[10, 10]] ∧
    ¬ videosUnique (prun toLowerASCII dbTen [PlaylistOp.create "u" (some "Mix") 12,
        PlaylistOp.addVideo "u" 12 (some (lowerHex 10)),
        PlaylistOp.addVideo "u" 12 (some (upperHex 10))]) := by
  refine ⟨by decide, ?_, by decide, by decide, ?_⟩
  · intro u hu p hp
    simp only [dbTen, List.mem_singleton] at hu
    subst hu
    cases hp
  · intro h
    have h1 := h
      { _id := 7, username := "u",
        playlists := [{ _id := 12, name := "Mix", videos := [10, 10] }], likedVideos := [],
        dislikedVideos := [], watchLater := [], history := [] }
      (by decide)
      { _id := 12, name := "Mix", videos := [10, 10] } (by decide)
    revert h1
    decide

/-! ## C18: RemoveVideo of an absent video -/

/-- C18. Playlist `10` of `dbPlaylists` holds `[1, 2]`; removing the absent video
`3` through the video router is answered 200, while the playlist router answers
400 to the same removal. -/
theorem remove_from_playlist_absent_succeeds :
    findPlaylist userPlaylists.playlists 10
      = some { _id := 10, name := "Favorites", videos := [1, 2] } ∧
    (videos.removeFromPlaylist dbPlaylists "u" (lowerHex 3) (some 10)).1.status = 200 ∧
    (playlists.removeVideo dbPlaylists "u" 10 (some (lowerHex 3))).1.status = 400 := by
  decide

/-! ## C19: scenario D -/

/-- C19. Playlist `12` of `dbMix` holds `[10, 11]`, without duplicates.  With
the id of video `10` spelled `...0A`: AddVideo is answered 200 and stores
`[10, 11, 10]`; RemoveVideo through the playlist router is answered 400 'Video
is not in this playlist' and removes nothing; RemoveVideo through the video
router is answered 200 and removes nothing. -/
theorem scenario_D_respelled :
    (playlists.addVideo dbMix "u" 12 (some (upperHex 10))).1.status = 200 ∧
    (findOne (playlists.addVideo dbMix "u" 12 (some (upperHex 10))).2.users "u").map
      (fun u => u.playlists.map (fun p => p.videos)) = some [[10, 11, 10]] ∧
    playlists.removeVideo dbMix "u" 12 (some (upperHex 10))
      = (reply 400 "Video is not in this playlist", dbMix) ∧
    (videos.removeFromPlaylist dbMix "u" (upperHex 10) (some 12)).1.status = 200 ∧
    (findOne (videos.removeFromPlaylist dbMix "u" (upperHex 10) (some 12)).2.users "u").map
      (fun u => u.playlists.map (fun p => p.videos)) = some [[10, 11]] ∧
    (findOne (playlists.removeVideo dbMix "u" 12 (some (lowerHex 10))).2.users "u").map
      (fun u => u.playlists.map (fun p => p.videos)) = some [[11]] := by
  decide

/-! ## History requests, one at a time -/

theorem forall_users_saveUser {db : DB} (P : User → Prop) (U : User)
    (h : ∀ u ∈ db.users, P u) (hU : P U) : ∀ u ∈ (saveUser db U).users, P u := by
  intro u hu
  unfold saveUser at hu
  obtain ⟨x, hx, rfl⟩ := List.mem_map.mp hu
  by_cases hi : (x._id == U._id) = true
  · rw [if_pos hi]; exact hU
  · rw [if_neg hi]; exact h x hx

theorem any_isNone_false_iff (h : List HistoryEntry) :
    h.any (fun entry => entry.video.isNone) = false ↔ ∀ e ∈ h, e.video.isSome = true := by
  rw [List.any_eq_false]
  constructor
  · intro hh e he
    have := hh e he
    cases hv : e.video with
    | none => rw [hv] at this; simp at this
    | some x => rfl
  · intro hh e he
    have := hh e he
    cases hv : e.video with
    | none => rw [hv] at this; cases this
    | some x => simp


/-- The history a record request stores, or the fault on an entry without video. -/
theorem record_eq {db : DB} {username : String} {user : User} (v : Option IdString)
    (now : Nat) (hu : findOne db.users username = some user) :
    history.record db username v now =
      if user.history.any (fun entry => entry.video.isNone) = true then
        (reply 500 "Failed to update history", db)
      else
        (reply 200 "", saveUser db
          { user with
            history :=
              (({ video := v.map (fun s => s.id), watchedAt := now } : HistoryEntry) ::
                user.history.filter (fun e => differs e v)).take 100 }) := by
  unfold history.record
  rw [hu]

theorem recordPatch_eq {db : DB} {username : String} {user : User} (v : Option IdString)
    (now : Nat) (hu : findOne db.users username = some user) :
    history.recordPatch db username (some v) now =
      if user.history.any (fun entry => entry.video.isNone) = true then
        (reply 500 "Failed to update history", db)
      else
        (reply 200 "ok", saveUser db
          { user with
            history :=
              (({ video := v.map (fun s => s.id), watchedAt := now } : HistoryEntry) ::
                user.history.filter (fun e => differs e v)).take 100 }) := by
  unfold history.recordPatch
  rw [hu]

theorem recordPatch_of_no_body {db : DB} {username : String} {user : User} (now : Nat)
    (hu : findOne db.users username = some user) :
    history.recordPatch db username none now = (reply 500 "Failed to update history", db) := by
  unfold history.recordPatch
  rw [hu]

theorem historyRemove_eq {db : DB} {username : String} {user : User} (v : IdString)
    (hu : findOne db.users username = some user) :
    history.remove db username v =
      if user.history.any (fun entry => entry.video.isNone) = true then
        (reply 500 "Failed to remove from history", db)
      else
        (reply 200 "", saveUser db
          { user with history := user.history.filter (fun e => differs e (some v)) }) := by
  unfold history.remove
  rw [hu]

theorem historyClear_eq {db : DB} {username : String} {user : User}
    (hu : findOne db.users username = some user) :
    history.clear db username =
      (reply 200 "History cleared", saveUser db { user with history := [] }) := by
  unfold history.clear
  rw [hu]

theorem history_of_no_user {db : DB} {username : String}
    (hu : findOne db.users username = none) :
    (∀ v now, history.record db username v now = (reply 404 "User not found", db)) ∧
    (∀ v now, history.recordPatch db username v now = (reply 404 "User not found", db)) ∧
    (∀ v, history.remove db username v = (reply 404 "User not found", db)) ∧
    history.clear db username = (reply 404 "User not found", db) := by
  refine ⟨?_, ?_, ?_, ?_⟩
  · intro v now; unfold history.record; rw [hu]
  · intro v now; unfold history.recordPatch; rw [hu]
  · intro v; unfold history.remove; rw [hu]
  · unfold history.clear; rw [hu]

/-- A property of user documents is kept by one history request as soon as it is
kept by each of the changes a handler makes to the acting user. -/
theorem hstep_users_forall (P : User → Prop) (db : DB) (op : HistoryOp)
    (hRec : ∀ username u v now, findOne db.users username = some u →
      (op = HistoryOp.record username v now ∨
        op = HistoryOp.recordPatch username (some v) now) →
      u.history.any (fun entry => entry.video.isNone) = false → P u →
      P { u with
          history :=
            (({ video := v.map (fun s => s.id), watchedAt := now } : HistoryEntry) ::
              u.history.filter (fun e => differs e v)).take 100 })
    (hRem : ∀ u v, P u →
      P { u with history := u.history.filter (fun e => differs e (some v)) })
    (hClr : ∀ u, P u → P { u with history := [] })
    (h : ∀ u ∈ db.users, P u) : ∀ u ∈ (hstep db op).2.users, P u := by
  cases op with
  | record username v now =>
    show ∀ u ∈ (history.record db username v now).2.users, P u
    cases hu : findOne db.users username with
    | none => rw [(history_of_no_user hu).1]; exact h
    | some user =>
      rw [record_eq v now hu]
      cases ha : user.history.any (fun entry => entry.video.isNone) with
      | true => exact h
      | false =>
        exact forall_users_saveUser P _ h
          (hRec username user v now hu (Or.inl rfl) ha (h user (findOne_some hu).1))
  | recordPatch username body now =>
    show ∀ u ∈ (history.recordPatch db username body now).2.users, P u
    cases hu : findOne db.users username with
    | none => rw [(history_of_no_user hu).2.1]; exact h
    | some user =>
      cases body with
      | none => rw [recordPatch_of_no_body now hu]; exact h
      | some v =>
        rw [recordPatch_eq v now hu]
        cases ha : user.history.any (fun entry => entry.video.isNone) with
        | true => exact h
        | false =>
          exact forall_users_saveUser P _ h
            (hRec username user v now hu (Or.inr rfl) ha (h user (findOne_some hu).1))
  | remove username v =>
    show ∀ u ∈ (history.remove db username v).2.users, P u
    cases hu : findOne db.users username with
    | none => rw [(history_of_no_user hu).2.2.1]; exact h
    | some user =>
      rw [historyRemove_eq v hu]
      cases ha : user.history.any (fun entry => entry.video.isNone) with
      | true => exact h
      | false => exact forall_users_saveUser P _ h (hRem user v (h user (findOne_some hu).1))
  | clear username =>
    show ∀ u ∈ (history.clear db username).2.users, P u
    cases hu : findOne db.users username with
    | none => rw [(history_of_no_user hu).2.2.2]; exact h
    | some user =>
      rw [historyClear_eq hu]
      exact forall_users_saveUser P _ h (hClr user (h user (findOne_some hu).1))

theorem hrun_cons (db : DB) (op : HistoryOp) (ops : List HistoryOp) :
    hrun db (op :: ops) = hrun (hstep db op).2 ops := rfl

/-- The user stored with a new history is the one a following request reads. -/
theorem findOne_saveUser_history {db : DB} {username : String} {user : User}
    (hu : findOne db.users username = some user) (hist : List HistoryEntry) :
    findOne (saveUser db { user with history := hist }).users username
      = some { user with history := hist } :=
  @findOne_saveUser db username user { user with history := hist } hu rfl (findOne_some hu).2

/-! ## C20 and C21: Record with an id spelled in upper case -/

/-- C20. With an entry for video `10` in the history, a record request that
spells the id `...0A` is answered 200 and keeps the old entry behind the new one,
through `POST /` and through `PATCH /`; recording `10`, `11`, `10` from an empty
history with the last id spelled `...0A` stores three entries.  With every id
spelled `...0a` the old entry is dropped and two entries are stored. -/
theorem respelled_record_keeps_old_entry :
    (findOne (hrun dbTen [HistoryOp.record "u" (some (lowerHex 10)) 5,
        HistoryOp.record "u" (some (upperHex 10)) 6]).users "u").map (fun u => u.history)
      = some [{ video := some 10, watchedAt := 6 }, { video := some 10, watchedAt := 5 }] ∧
    (hstep (hrun dbTen [HistoryOp.record "u" (some (lowerHex 10)) 5])
      (HistoryOp.record "u" (some (upperHex 10)) 6)).1.status = 200 ∧
    (findOne (hrun dbTen [HistoryOp.recordPatch "u" (some (some (lowerHex 10))) 5,
        HistoryOp.recordPatch "u" (some (some (upperHex 10))) 6]).users "u").map
      (fun u => u.history)
      = some [{ video := some 10, watchedAt := 6 }, { video := some 10, watchedAt := 5 }] ∧
    (findOne (hrun dbTen [HistoryOp.record "u" (some (lowerHex 10)) 5,
        HistoryOp.record "u" (some (lowerHex 11)) 6,
        HistoryOp.record "u" (some (upperHex 10)) 7]).users "u").map (fun u => u.history)
      = some [{ video := some 10, watchedAt := 7 }, { video := some 11, watchedAt := 6 },
              { video := some 10, watchedAt := 5 }] ∧
    (findOne (hrun dbTen [HistoryOp.record "u" (some (lowerHex 10)) 5,
        HistoryOp.record "u" (some (lowerHex 11)) 6,
        HistoryOp.record "u" (some (lowerHex 10)) 7]).users "u").map (fun u => u.history)
      = some [{ video := some 10, watchedAt := 7 }, { video := some 11, watchedAt := 6 }] := by
  decide

/-- C21. From an empty history, two record requests for video `10`, the second
with the id spelled `...0A`, leave a history with two entries for the same
video; a remove-entry request with the id spelled `...0A` does not repair it. -/
theorem respelled_record_breaks_uniqueness :
    (findOne dbTen.users "u").map (fun u => u.history) = some [] ∧
    historyUnique dbTen ∧
    (findOne (hrun dbTen [HistoryOp.record "u" (some (lowerHex 10)) 5,
        HistoryOp.record "u" (some (upperHex 10)) 6]).users "u").map
      (fun u => u.history.map (fun e => e.video)) = some [some 10, some 10] ∧
    (findOne (hrun dbTen [HistoryOp.record "u" (some (lowerHex 10)) 5,
        HistoryOp.record "u" (some (upperHex 10)) 6,
        HistoryOp.remove "u" (upperHex 10)]).users "u").map
      (fun u => u.history.map (fun e => e.video)) = some [some 10, some 10] ∧
    ¬ historyUnique (hrun dbTen [HistoryOp.record "u" (some (lowerHex 10)) 5,
        HistoryOp.record "u" (some (upperHex 10)) 6]) := by
  refine ⟨by decide, ?_, by decide, by decide, ?_⟩
  · intro u hu
    simp only [dbTen, List.mem_singleton] at hu
    subst hu
    exact List.nodup_nil
  · intro h
    have h1 := h
      { _id := 7, username := "u", playlists := [], likedVideos := [],
        dislikedVideos := [], watchLater := [],
        history := [{ video := some 10, watchedAt := 6 }, { video := some 10, watchedAt := 5 }] }
      (by decide)
    revert h1
    decide

/-! ## C22: oldest-entry eviction -/

theorem recordAll_cons (db : DB) (username : String) (p : IdString × Nat)
    (rest : List (IdString × Nat)) :
    recordAll db username (p :: rest) =
      recordAll (history.record db username (some p.1) p.2).2 username rest := rfl

/-- On a history whose entries all carry a video, a record request is answered
200 and stores `recorded`. -/
theorem record_lookup {db : DB} {username : String} {user : User} (s : IdString) (now : Nat)
    (hu : findOne db.users username = some user)
    (hwf : ∀ e ∈ user.history, e.video.isSome = true) :
    (history.record db username (some s) now).1.status = 200 ∧
    findOne (history.record db username (some s) now).2.users username
      = some { user with history := recorded user.history s now } := by
  rw [record_eq (some s) now hu, (any_isNone_false_iff user.history).mpr hwf]
  exact ⟨rfl, findOne_saveUser_history hu _⟩

theorem recorded_wf (h : List HistoryEntry) (s : IdString) (now : Nat)
    (hwf : ∀ e ∈ h, e.video.isSome = true) :
    ∀ e ∈ recorded h s now, e.video.isSome = true := by
  intro e he
  unfold recorded at he
  rcases List.mem_cons.mp (List.mem_of_mem_take he) with h1 | h1
  · rw [h1]; rfl
  · exact hwf e (List.mem_filter.mp h1).1

/-- Recording a list of videos stores the fold of `recorded` over the list. -/
theorem recordAll_lookup (username : String) (vs : List (IdString × Nat)) :
    ∀ (db : DB) (user : User), findOne db.users username = some user →
      (∀ e ∈ user.history, e.video.isSome = true) →
      findOne (recordAll db username vs).users username =
        some { user with
               history := vs.foldl (fun h p => recorded h p.1 p.2) user.history } := by
  induction vs with
  | nil => intro db user hu _; exact hu
  | cons p rest ih =>
    intro db user hu hwf
    rw [recordAll_cons, List.foldl_cons]
    exact ih _ _ (record_lookup p.1 p.2 hu hwf).2 (recorded_wf user.history p.1 p.2 hwf)

/-- Recording a video that no kept entry refers to puts it in front of the kept
entries, however its id is spelled. -/
theorem recorded_fresh (acc : List (IdString × Nat)) (p : IdString × Nat)
    (hp : p.1.id ∉ acc.map (fun q => q.1.id)) :
    recorded ((acc.take 100).map entryOf) p.1 p.2 = ((p :: acc).take 100).map entryOf := by
  have hf : ((acc.take 100).map entryOf).filter (fun e => differs e (some p.1))
      = (acc.take 100).map entryOf := by
    rw [List.filter_eq_self]
    intro e he
    obtain ⟨q, hq, rfl⟩ := List.mem_map.mp he
    have hq1 : q.1.id ≠ p.1.id := by
      intro e1
      exact hp (e1 ▸ List.mem_map_of_mem (fun q => q.1.id) (List.mem_of_mem_take hq))
    simp [differs, entryOf, IdString.isStringOf, hq1]
  unfold recorded
  rw [hf]
  show List.take 100 (entryOf p :: List.map entryOf (List.take 100 acc)) = _
  rw [← List.map_cons, ← List.map_take]
  congr 1
  show List.take 100 (p :: List.take 100 acc) = List.take 100 (p :: acc)
  rw [List.take_succ_cons, List.take_succ_cons, List.take_take]
  rfl

/-- Recording pairwise distinct videos on top of `acc` keeps the newest 100. -/
theorem foldl_recorded (vs : List (IdString × Nat)) :
    ∀ acc : List (IdString × Nat), (vs.map (fun p => p.1.id)).Nodup →
      (∀ p ∈ vs, p.1.id ∉ acc.map (fun q => q.1.id)) →
      vs.foldl (fun h p => recorded h p.1 p.2) ((acc.take 100).map entryOf)
        = ((vs.reverse ++ acc).take 100).map entryOf := by
  induction vs with
  | nil => intro acc _ _; rfl
  | cons p rest ih =>
    intro acc hn hacc
    rw [List.map_cons, List.nodup_cons] at hn
    rw [List.foldl_cons, recorded_fresh acc p (hacc p (List.mem_cons_self _ _)),
      ih (p :: acc) hn.2, List.reverse_cons, List.append_assoc]
    · rfl
    · intro q hq hm
      rw [List.map_cons] at hm
      rcases List.mem_cons.mp hm with h1 | h1
      · exact hn.1 (h1 ▸ List.mem_map_of_mem (fun p => p.1.id) hq)
      · exact hacc q (List.mem_cons_of_mem _ hq) h1

/-- C22. From an empty history, recording the pairwise distinct videos of `vs`
in order (each with its time, its id spelled in any way) stores exactly the most
recently recorded `min n 100` of them, newest first, where `n` is the length of
`vs`; when `n = 101` the stored history has exactly 100 entries and none of them
is for the first video recorded. -/
theorem eviction (db : DB) (username : String) (user : User) (vs : List (IdString × Nat))
    (hu : findOne db.users username = some user) (hempty : user.history = [])
    (hn : (vs.map (fun p => p.1.id)).Nodup) :
    ∃ user1, findOne (recordAll db username vs).users username = some user1 ∧
      user1.history = (vs.reverse.take 100).map entryOf ∧
      user1.history.length = min vs.length 100 ∧
      (vs.length = 101 → user1.history.length = 100 ∧
        ∀ p, vs.head? = some p → ∀ e ∈ user1.history, e.video ≠ some p.1.id) := by
  have hwf : ∀ e ∈ user.history, e.video.isSome = true := by
    rw [hempty]; intro e he; cases he
  have h1 := recordAll_lookup username vs db user hu hwf
  have h2 := foldl_recorded vs [] hn (fun _ _ hm => by cases hm)
  rw [hempty] at h1
  rw [List.append_nil] at h2
  have h3 : vs.foldl (fun h p => recorded h p.1 p.2) [] = (vs.reverse.take 100).map entryOf :=
    h2
  rw [h3] at h1
  refine ⟨_, h1, rfl, ?_, ?_⟩
  · show ((vs.reverse.take 100).map entryOf).length = _
    rw [List.length_map, List.length_take, List.length_reverse, Nat.min_comm]
  · intro hlen
    constructor
    · show ((vs.reverse.take 100).map entryOf).length = _
      rw [List.length_map, List.length_take, List.length_reverse, hlen]
      rfl
    · intro p hp e he
      cases vs with
      | nil => cases hp
      | cons q rest =>
        have hq : q = p := by simpa using hp
        subst hq
        have hrest : rest.length = 100 := by simpa using hlen
        have he1 : e ∈ (((q :: rest).reverse).take 100).map entryOf := he
        rw [List.reverse_cons, List.take_append_of_le_length (by simp [hrest]),
          List.take_of_length_le (by simp [hrest])] at he1
        obtain ⟨r, hr, rfl⟩ := List.mem_map.mp he1
        rw [List.map_cons, List.nodup_cons] at hn
        intro hev
        have : r.1.id = q.1.id := by simpa [entryOf] using hev
        exact hn.1 (this ▸ List.mem_map_of_mem (fun p => p.1.id) (List.mem_reverse.mp hr))

/-- Witness of C22: three distinct videos recorded on the fresh store, the
second with its id spelled in upper case. -/
theorem eviction_witness :
    findOne dbTen.users "u" = some
      { _id := 7, username := "u", playlists := [], likedVideos := [],
        dislikedVideos := [], watchLater := [], history := [] } ∧
    ∃ user1,
      findOne (recordAll dbTen "u"
        [(lowerHex 10, 5), (upperHex 11, 6), (lowerHex 3, 7)]).users "u" = some user1 ∧
      user1.history =
        ([(lowerHex 10, 5), (upperHex 11, 6), (lowerHex 3, 7)].reverse.take 100).map entryOf ∧
      user1.history.length = min [(lowerHex 10, 5), (upperHex 11, 6), (lowerHex 3, 7)].length 100 :=
  have h := eviction dbTen "u"
    { _id := 7, username := "u", playlists := [], likedVideos := [],
      dislikedVideos := [], watchLater := [], history := [] }
    [(lowerHex 10, 5), (upperHex 11, 6), (lowerHex 3, 7)]
    (by decide) rfl (by decide)
  ⟨by decide, h.elim (fun u1 hu1 => ⟨u1, hu1.1, hu1.2.1, hu1.2.2.1⟩)⟩

/-! ## C23: history Read -/

theorem read_eq {db : DB} {username : String} {user : User}
    (hu : findOne db.users username = some user) :
    history.read db username =
      (reply 200 "", (sortByWatchedAt (user.history.map (populate db))).filterMap toView) := by
  unfold history.read
  rw [hu]

theorem newerFirst_total : IsTotal PopulatedEntry newerFirst :=
  ⟨fun a b => Nat.le_total b.watchedAt a.watchedAt⟩

theorem newerFirst_trans : IsTrans PopulatedEntry newerFirst :=
  ⟨fun _ _ _ hab hbc => Nat.le_trans hbc hab⟩

/-- The sort leaves a descending list. -/
theorem sortByWatchedAt_sorted (l : List PopulatedEntry) :
    (sortByWatchedAt l).Pairwise newerFirst :=
  @List.sorted_insertionSort PopulatedEntry newerFirst newerFirstDec newerFirst_total newerFirst_trans l

/-- The sort only rearranges. -/
theorem sortByWatchedAt_perm (l : List PopulatedEntry) : (sortByWatchedAt l).Perm l :=
  @List.perm_insertionSort PopulatedEntry newerFirst newerFirstDec l

/-- The sort leaves a descending list as it is. -/
theorem sortByWatchedAt_of_sorted {l : List PopulatedEntry} (h : l.Pairwise newerFirst) :
    sortByWatchedAt l = l :=
  @List.Sorted.insertionSort_eq PopulatedEntry newerFirst newerFirstDec l h

theorem toView_watchedAt {e : PopulatedEntry} {v : HistoryView} (h : v ∈ toView e) :
    v.watchedAt = e.watchedAt := by
  unfold toView at h
  cases hv : e.video with
  | none => rw [hv] at h; cases h
  | some video =>
    rw [hv] at h
    simp only [Option.map_some', Option.mem_def, Option.some.injEq] at h
    rw [← h]

theorem filterMap_length_eq_filter {α β : Type} (f : α → Option β) (l : List α) :
    (l.filterMap f).length = (l.filter (fun a => (f a).isSome)).length := by
  induction l with
  | nil => rfl
  | cons a l ih =>
    cases h : f a with
    | none => simp [List.filterMap_cons, List.filter_cons, h, ih]
    | some b => simp [List.filterMap_cons, List.filter_cons, h, ih]

/-- C23. For an existing user the read route answers 200 whatever the stored
entries refer to; its result is in descending order of `watchedAt` whatever the
storage order is; it is a rearrangement of the views of the stored entries whose
video exists, so it holds one element for each such entry and none for an entry
whose video no longer exists. -/
theorem read_contract (db : DB) (username : String) (user : User)
    (hu : findOne db.users username = some user) :
    (history.read db username).1.status = 200 ∧
    (history.read db username).2.Pairwise (fun a b => b.watchedAt ≤ a.watchedAt) ∧
    (history.read db username).2.Perm
      (user.history.filterMap (fun e => toView (populate db e))) ∧
    (history.read db username).2.length =
      (user.history.filter
        (fun e => (e.video.bind (findById db.videos)).isSome)).length := by
  rw [read_eq hu]
  have hperm : ((sortByWatchedAt (user.history.map (populate db))).filterMap toView).Perm
      (user.history.filterMap (fun e => toView (populate db e))) := by
    have h1 := List.Perm.filterMap toView (sortByWatchedAt_perm (user.history.map (populate db)))
    rw [List.filterMap_map] at h1
    exact h1
  refine ⟨rfl, ?_, hperm, ?_⟩
  · refine List.Pairwise.filterMap toView ?_ (sortByWatchedAt_sorted _)
    intro a a1 haa b hb b1 hb1
    rw [toView_watchedAt hb, toView_watchedAt hb1]
    exact haa
  · rw [hperm.length_eq, filterMap_length_eq_filter]
    congr 1
    apply List.filter_congr
    intro e _
    unfold toView populate
    cases e.video.bind (findById db.videos) <;> rfl

/-- Witness of C23: a history out of order with a dangling entry. -/
theorem read_contract_witness :
    findOne dbHistory.users "u" = some
      { _id := 7, username := "u", playlists := [], likedVideos := [],
        dislikedVideos := [], watchLater := [],
        history := [{ video := some 1, watchedAt := 3 }, { video := some 9, watchedAt := 8 },
                    { video := some 2, watchedAt := 5 }] } ∧
    (history.read dbHistory "u").1.status = 200 ∧
    (history.read dbHistory "u").2.map (fun v => v._id) = [2, 1] :=
  ⟨by decide,
    (read_contract dbHistory "u"
      { _id := 7, username := "u", playlists := [], likedVideos := [],
        dislikedVideos := [], watchLater := [],
        history := [{ video := some 1, watchedAt := 3 }, { video := some 9, watchedAt := 8 },
                    { video := some 2, watchedAt := 5 }] } (by decide)).1,
    by decide⟩

/-! ## C24: history RemoveEntry -/

/-- C24. With an entry for video `10` in the history, the remove-entry request
that spells the id `...0A` is answered 200 and leaves the entry in place; spelled
`...0a` it removes the entry.  After a record request without a video id, the
remove-entry request is answered 500. -/
theorem respelled_remove_entry_keeps_entry :
    (findOne (hrun dbTen [HistoryOp.record "u" (some (lowerHex 10)) 5]).users "u").map
      (fun u => u.history) = some [{ video := some 10, watchedAt := 5 }] ∧
    (history.remove (hrun dbTen [HistoryOp.record "u" (some (lowerHex 10)) 5]) "u"
      (upperHex 10)).1.status = 200 ∧
    (findOne (history.remove (hrun dbTen [HistoryOp.record "u" (some (lowerHex 10)) 5]) "u"
      (upperHex 10)).2.users "u").map (fun u => u.history)
      = some [{ video := some 10, watchedAt := 5 }] ∧
    (findOne (history.remove (hrun dbTen [HistoryOp.record "u" (some (lowerHex 10)) 5]) "u"
      (lowerHex 10)).2.users "u").map (fun u => u.history) = some [] ∧
    (history.remove (hrun dbTen [HistoryOp.record "u" none 5]) "u"
      (lowerHex 10)).1.status = 500 := by
  decide

/-! ## C27: toggling twice -/

theorem addLiked_dropLiked (user : User) (v : ObjectId) (hl : v ∉ user.likedVideos)
    (hd : v ∉ user.dislikedVideos) : (user.addLiked v).dropLiked v = user := by
  cases user
  simp only [User.addLiked, User.dropLiked] at *
  congr
  · unfold without
    rw [List.filter_append, ← without, without_eq_self hl]
    simp
  · exact without_eq_self hd

theorem addDisliked_dropDisliked (user : User) (v : ObjectId) (hl : v ∉ user.likedVideos)
    (hd : v ∉ user.dislikedVideos) : (user.addDisliked v).dropDisliked v = user := by
  cases user
  simp only [User.addDisliked, User.dropDisliked] at *
  congr
  · exact without_eq_self hl
  · unfold without
    rw [List.filter_append, ← without, without_eq_self hd]
    simp

theorem video_addLiked_dropLiked (video : Video) (user : User)
    (hd : video._id ∉ user.dislikedVideos) (h0 : 0 ≤ video.likes) :
    (video.addLiked user).dropLiked = video := by
  cases video
  simp only [Video.addLiked, Video.dropLiked] at *
  simp only [hd, if_false]
  congr
  simp only [add_sub_cancel_right]
  exact max_eq_right h0

theorem video_addDisliked_dropDisliked (video : Video) (user : User)
    (hl : video._id ∉ user.likedVideos) (h0 : 0 ≤ video.dislikes) :
    (video.addDisliked user).dropDisliked = video := by
  cases video
  simp only [Video.addDisliked, Video.dropDisliked] at *
  simp only [hl, if_false]
  congr
  simp only [add_sub_cancel_right]
  exact max_eq_right h0

/-- C27. For an existing user holding `v` in neither array and an existing video
with non-negative counters, two consecutive like toggles on `v` are both
answered 200 and the user and the video read back afterwards are the documents
as they were before the first toggle; the same holds for two consecutive
dislike toggles. -/
theorem toggle_twice (db : DB) (username : String) (v : ObjectId) (user : User)
    (video : Video) (hu : findOne db.users username = some user)
    (hv : findById db.videos v = some video)
    (hl : v ∉ user.likedVideos) (hd : v ∉ user.dislikedVideos)
    (h0 : 0 ≤ video.likes) (h1 : 0 ≤ video.dislikes) :
    ((videos.like db username v).1.status = 200 ∧
      (videos.like (videos.like db username v).2 username v).1.status = 200 ∧
      findOne (videos.like (videos.like db username v).2 username v).2.users username
        = some user ∧
      findById (videos.like (videos.like db username v).2 username v).2.videos v
        = some video) ∧
    ((videos.dislike db username v).1.status = 200 ∧
      (videos.dislike (videos.dislike db username v).2 username v).1.status = 200 ∧
      findOne (videos.dislike (videos.dislike db username v).2 username v).2.users username
        = some user ∧
      findById (videos.dislike (videos.dislike db username v).2 username v).2.videos v
        = some video) := by
  have hvid := (findById_some hv).2
  constructor
  · have hu1 := findOne_stored hu (user.addLiked v) (video.addLiked user) rfl rfl
    have hv1 := findById_stored hv (user.addLiked v) (video.addLiked user) rfl
    have hm : v ∈ (user.addLiked v).likedVideos := by simp [User.addLiked]
    rw [like_of_not_mem hu hv hl, like_of_mem hu1 hv1 hm]
    have hu2 := findOne_stored hu1 ((user.addLiked v).dropLiked v)
      (video.addLiked user).dropLiked rfl rfl
    have hv2 := findById_stored hv1 ((user.addLiked v).dropLiked v)
      (video.addLiked user).dropLiked rfl
    exact ⟨rfl, rfl, hu2.trans (congrArg some (addLiked_dropLiked user v hl hd)),
      hv2.trans (congrArg some (video_addLiked_dropLiked video user (hvid ▸ hd) h0))⟩
  · have hu1 := findOne_stored hu (user.addDisliked v) (video.addDisliked user) rfl rfl
    have hv1 := findById_stored hv (user.addDisliked v) (video.addDisliked user) rfl
    have hm : v ∈ (user.addDisliked v).dislikedVideos := by simp [User.addDisliked]
    rw [dislike_of_not_mem hu hv hd, dislike_of_mem hu1 hv1 hm]
    have hu2 := findOne_stored hu1 ((user.addDisliked v).dropDisliked v)
      (video.addDisliked user).dropDisliked rfl rfl
    have hv2 := findById_stored hv1 ((user.addDisliked v).dropDisliked v)
      (video.addDisliked user).dropDisliked rfl
    exact ⟨rfl, rfl, hu2.trans (congrArg some (addDisliked_dropDisliked user v hl hd)),
      hv2.trans (congrArg some (video_addDisliked_dropDisliked video user (hvid ▸ hl) h1))⟩

/-- Witness of C27: like and unlike on the fresh store. -/
theorem toggle_twice_witness :
    findOne db0.users "u" = some
      { _id := 7, username := "u", playlists := [], likedVideos := [],
        dislikedVideos := [], watchLater := [], history := [] } ∧
    (videos.like (videos.like db0 "u" 1).2 "u" 1).1.status = 200 ∧
    findById (videos.like (videos.like db0 "u" 1).2 "u" 1).2.videos 1 = some
      { _id := 1, likes := 0, dislikes := 0, uploadedBy := none, views := 0, comments := [] } :=
  have h := (toggle_twice db0 "u" 1
    { _id := 7, username := "u", playlists := [], likedVideos := [],
      dislikedVideos := [], watchLater := [], history := [] }
    { _id := 1, likes := 0, dislikes := 0, uploadedBy := none, views := 0, comments := [] }
    (by decide) (by decide) (by decide) (by decide) (by decide) (by decide)).1
  ⟨by decide, h.2.1, h.2.2.2⟩

/-! ## C28: the dislike toggle is the like toggle with the roles exchanged -/

theorem swapUser_swapUser (u : User) : swapUser (swapUser u) = u := by
  cases u
  rfl

theorem swapVideo_swapVideo (v : Video) : swapVideo (swapVideo v) = v := by
  cases v
  rfl

theorem swapDB_swapDB (db : DB) : swapDB (swapDB db) = db := by
  cases db with
  | mk users videos =>
    simp only [swapDB, List.map_map]
    have h1 : swapUser ∘ swapUser = id := funext swapUser_swapUser
    have h2 : swapVideo ∘ swapVideo = id := funext swapVideo_swapVideo
    rw [h1, h2, List.map_id, List.map_id]

theorem find_swapUser (users : List User) (username : String) :
    findOne (users.map swapUser) username = (findOne users username).map swapUser := by
  induction users with
  | nil => rfl
  | cons u rest ih =>
    unfold findOne at ih ⊢
    rw [List.map_cons, find?_cons_ite, find?_cons_ite]
    have e : (swapUser u).username = u.username := rfl
    rw [e]
    by_cases h : (u.username == username) = true
    · rw [if_pos h, if_pos h]
      rfl
    · rw [if_neg h, if_neg h]
      exact ih

theorem find_swapVideo (videos : List Video) (id : ObjectId) :
    findById (videos.map swapVideo) id = (findById videos id).map swapVideo := by
  induction videos with
  | nil => rfl
  | cons v rest ih =>
    unfold findById at ih ⊢
    rw [List.map_cons, find?_cons_ite, find?_cons_ite]
    have e : (swapVideo v)._id = v._id := rfl
    rw [e]
    by_cases h : (v._id == id) = true
    · rw [if_pos h, if_pos h]
      rfl
    · rw [if_neg h, if_neg h]
      exact ih

theorem findOne_swapDB (db : DB) (username : String) :
    findOne (swapDB db).users username = (findOne db.users username).map swapUser :=
  find_swapUser db.users username

theorem findById_swapDB (db : DB) (id : ObjectId) :
    findById (swapDB db).videos id = (findById db.videos id).map swapVideo :=
  find_swapVideo db.videos id

theorem saveUser_swapDB (db : DB) (u : User) :
    saveUser (swapDB db) (swapUser u) = swapDB (saveUser db u) := by
  simp only [saveUser, swapDB, List.map_map]
  congr 1
  apply List.map_congr_left
  intro x _
  simp only [Function.comp]
  have e : (swapUser x)._id = x._id := rfl
  have e2 : (swapUser u)._id = u._id := rfl
  rw [e, e2]
  split <;> rfl

theorem saveVideo_swapDB (db : DB) (v : Video) :
    saveVideo (swapDB db) (swapVideo v) = swapDB (saveVideo db v) := by
  simp only [saveVideo, swapDB, List.map_map]
  congr 1
  apply List.map_congr_left
  intro x _
  simp only [Function.comp]
  have e : (swapVideo x)._id = x._id := rfl
  have e2 : (swapVideo v)._id = v._id := rfl
  rw [e, e2]
  split <;> rfl

theorem swapDB_saved (db : DB) (u : User) (v : Video) :
    swapDB (saveUser (saveVideo (swapDB db) (swapVideo v)) (swapUser u)) =
      saveUser (saveVideo db v) u := by
  rw [saveVideo_swapDB, saveUser_swapDB, swapDB_swapDB]

/-- C28. For every store, username and video id, the dislike toggle leaves the
store that the like toggle leaves when it is run between two swaps (each swap
exchanges `likedVideos` with `dislikedVideos` in every user and `likes` with
`dislikes` in every video), and the two answer with the same status. -/
theorem dislike_is_swapped_like (db : DB) (username : String) (id : ObjectId) :
    (videos.dislike db username id).2 = swapDB (videos.like (swapDB db) username id).2 ∧
    (videos.dislike db username id).1.status =
      (videos.like (swapDB db) username id).1.status := by
  cases hv : findById db.videos id with
  | none =>
    have hv2 : findById (swapDB db).videos id = none := by
      rw [findById_swapDB, hv]
      rfl
    rw [dislike_of_no_video hv, like_of_no_video hv2]
    exact ⟨(swapDB_swapDB db).symm, rfl⟩
  | some video =>
    have hv2 : findById (swapDB db).videos id = some (swapVideo video) := by
      rw [findById_swapDB, hv]
      rfl
    cases hu : findOne db.users username with
    | none =>
      have hu2 : findOne (swapDB db).users username = none := by
        rw [findOne_swapDB, hu]
        rfl
      rw [dislike_of_no_user hv hu, like_of_no_user hv2 hu2]
      exact ⟨(swapDB_swapDB db).symm, rfl⟩
    | some user =>
      have hu2 : findOne (swapDB db).users username = some (swapUser user) := by
        rw [findOne_swapDB, hu]
        rfl
      by_cases hd : id ∈ user.dislikedVideos
      · have hl2 : id ∈ (swapUser user).likedVideos := hd
        rw [dislike_of_mem hu hv hd, like_of_mem hu2 hv2 hl2]
        exact ⟨(swapDB_saved db (user.dropDisliked id) video.dropDisliked).symm, rfl⟩
      · have hl2 : id ∉ (swapUser user).likedVideos := hd
        rw [dislike_of_not_mem hu hv hd, like_of_not_mem hu2 hv2 hl2]
        exact ⟨(swapDB_saved db (user.addDisliked id) (video.addDisliked user)).symm, rfl⟩

/-! ## C29: storage order is presentation order -/

theorem historySorted_hstep (db : DB) (op : HistoryOp) (ht : opTimely db op)
    (h : historySorted db) : historySorted (hstep db op).2 := by
  refine hstep_users_forall
    (fun u => u.history.Pairwise (fun a b : HistoryEntry => b.watchedAt ≤ a.watchedAt))
    db op ?_ ?_ ?_ h
  · intro username u v now hu hop _ hP
    have hb : ∀ e ∈ u.history, e.watchedAt ≤ now := by
      rcases hop with hop | hop
      · rw [hop] at ht
        exact ht u hu
      · rw [hop] at ht
        exact ht u hu
    show List.Pairwise _ (List.take 100 _)
    refine List.Pairwise.sublist (List.take_sublist _ _) ?_
    rw [List.pairwise_cons]
    exact ⟨fun a ha => hb a (List.mem_filter.mp ha).1, hP.sublist (List.filter_sublist _)⟩
  · intro u v hP
    exact List.Pairwise.sublist (List.filter_sublist _) hP
  · intro u _
    exact List.Pairwise.nil

theorem historySorted_hrun (db : DB) (ops : List HistoryOp) (hs : historySorted db)
    (ht : timely db ops) : historySorted (hrun db ops) := by
  induction ops generalizing db with
  | nil => exact hs
  | cons op ops ih =>
    rw [hrun_cons]
    exact ih _ (historySorted_hstep db op ht.1 hs) ht.2

theorem read_of_sorted {db : DB} {username : String} {user : User}
    (hu : findOne db.users username = some user)
    (hs : user.history.Pairwise (fun a b : HistoryEntry => b.watchedAt ≤ a.watchedAt)) :
    history.read db username =
      (reply 200 "", user.history.filterMap (fun e => toView (populate db e))) := by
  have hp : (user.history.map (populate db)).Pairwise newerFirst :=
    List.Pairwise.map (populate db) (fun _ _ hab => hab) hs
  rw [read_eq hu, sortByWatchedAt_of_sorted hp, List.filterMap_map]
  rfl

/-- C29. From a store whose histories are sorted by `watchedAt` descending (an
empty history is), every run of record (POST or PATCH), remove-entry and clear
requests in which each record request carries a time not before any `watchedAt`
the acting user already holds leaves every stored history sorted by `watchedAt`
descending, and the read route then answers 200 with the entries in exactly
their storage order (those whose video exists), the re-sort changing nothing. -/
theorem storage_order_is_presentation_order (db : DB) (ops : List HistoryOp)
    (hs : historySorted db) (ht : timely db ops) :
    historySorted (hrun db ops) ∧
    ∀ username user, findOne (hrun db ops).users username = some user →
      sortByWatchedAt (user.history.map (populate (hrun db ops)))
        = user.history.map (populate (hrun db ops)) ∧
      history.read (hrun db ops) username =
        (reply 200 "",
          user.history.filterMap (fun e => toView (populate (hrun db ops) e))) := by
  have h := historySorted_hrun db ops hs ht
  refine ⟨h, fun username user hu => ⟨?_, ?_⟩⟩
  · exact sortByWatchedAt_of_sorted
      (List.Pairwise.map (populate (hrun db ops)) (fun _ _ hab => hab)
        (h user (findOne_some hu).1))
  · exact read_of_sorted hu (h user (findOne_some hu).1)

theorem timely_sample :
    timely db0 [HistoryOp.record "u" (some (lowerHex 1)) 5, HistoryOp.record "u" (some (lowerHex 2)) 7,
      HistoryOp.remove "u" (lowerHex 1), HistoryOp.record "u" (some (lowerHex 1)) 7] := by
  refine ⟨?_, ?_, trivial, ?_, trivial⟩
  · intro user hu e he
    have h : findOne db0.users "u" = some
        { _id := 7, username := "u", playlists := [], likedVideos := [],
          dislikedVideos := [], watchLater := [], history := [] } := by decide
    rw [h] at hu
    cases hu
    cases he
  · intro user hu e he
    have h : findOne (hstep db0 (HistoryOp.record "u" (some (lowerHex 1)) 5)).2.users "u" = some
        { _id := 7, username := "u", playlists := [], likedVideos := [],
          dislikedVideos := [], watchLater := [],
          history := [{ video := some 1, watchedAt := 5 }] } := by decide
    rw [h] at hu
    cases hu
    simp only [List.mem_singleton] at he
    rw [he]
    decide
  · intro user hu e he
    have h : findOne (hstep (hstep (hstep db0 (HistoryOp.record "u" (some (lowerHex 1)) 5)).2
          (HistoryOp.record "u" (some (lowerHex 2)) 7)).2 (HistoryOp.remove "u" (lowerHex 1))).2.users "u" = some
        { _id := 7, username := "u", playlists := [], likedVideos := [],
          dislikedVideos := [], watchLater := [],
          history := [{ video := some 2, watchedAt := 7 }] } := by decide
    rw [h] at hu
    cases hu
    simp only [List.mem_singleton] at he
    rw [he]

/-- Witness of C29: record 1, record 2, remove 1, record 1 from the empty
history; the history is stored and read as video 1 before video 2. -/
theorem storage_order_is_presentation_order_witness :
    historySorted db0 ∧
    historySorted (hrun db0 [HistoryOp.record "u" (some (lowerHex 1)) 5,
      HistoryOp.record "u" (some (lowerHex 2)) 7, HistoryOp.remove "u" (lowerHex 1),
      HistoryOp.record "u" (some (lowerHex 1)) 7]) ∧
    (findOne (hrun db0 [HistoryOp.record "u" (some (lowerHex 1)) 5,
      HistoryOp.record "u" (some (lowerHex 2)) 7, HistoryOp.remove "u" (lowerHex 1),
      HistoryOp.record "u" (some (lowerHex 1)) 7]).users "u").map (fun u => u.history) =
      some [{ video := some 1, watchedAt := 7 }, { video := some 2, watchedAt := 7 }] :=
  have hs : historySorted db0 := by
    intro u hu
    simp only [db0, List.mem_singleton] at hu
    subst hu
    exact List.Pairwise.nil
  ⟨hs, (storage_order_is_presentation_order db0 _ hs timely_sample).1, by decide⟩

/-! ## C25: writes that fail -/

/-- Two awaited writes, the video first: either both land and the success
response is sent, or 500 is sent with nothing written (the first write failed)
or with the video written and the user not (the second write failed). -/
theorem videoThenUser_cases (videoOk userOk : Bool) (db : DB) (V : Video) (U : User)
    (failure success : Response) (hf : failure.status = 500) (hs : success.status ≠ 500)
    (r : Response × DB)
    (hr : r = match trySaveVideo videoOk db V with
      | none => (failure, db)
      | some db1 =>
        match trySaveUser userOk db1 U with
        | none => (failure, db1)
        | some db2 => (success, db2)) :
    (r = (success, saveUser (saveVideo db V) U) ∧ r.1.status ≠ 500) ∨
    (r.1.status = 500 ∧
      ((videoOk = false ∧ r.2 = db) ∨
        (videoOk = true ∧ userOk = false ∧
          r.2 = { users := db.users, videos := (saveUser (saveVideo db V) U).videos }))) := by
  subst hr
  cases videoOk
  · exact Or.inr ⟨hf, Or.inl ⟨rfl, rfl⟩⟩
  · cases userOk
    · exact Or.inr ⟨hf, Or.inr ⟨rfl, rfl, rfl⟩⟩
    · exact Or.inl ⟨rfl, hs⟩

theorem likeFallible_cases (videoOk userOk : Bool) (db : DB) (username : String)
    (id : ObjectId) :
    (videos.likeFallible videoOk userOk db username id = videos.like db username id ∧
      (videos.likeFallible videoOk userOk db username id).1.status ≠ 500) ∨
    ((videos.likeFallible videoOk userOk db username id).1.status = 500 ∧
      ((videoOk = false ∧ (videos.likeFallible videoOk userOk db username id).2 = db) ∨
        (videoOk = true ∧ userOk = false ∧
          (videos.likeFallible videoOk userOk db username id).2 =
            { users := db.users, videos := (videos.like db username id).2.videos }))) := by
  unfold videos.likeFallible videos.like
  cases hv : findById db.videos id with
  | none => exact Or.inl ⟨rfl, by show (404 : Nat) ≠ 500; decide⟩
  | some video =>
    cases hu : findOne db.users username with
    | none => exact Or.inl ⟨rfl, by show (404 : Nat) ≠ 500; decide⟩
    | some user =>
      simp only []
      split
      · exact videoThenUser_cases videoOk userOk db _ _ (reply 500 "Failed to like video")
          (reply 200 "Video liked successfully") rfl (by decide) _ rfl
      · exact videoThenUser_cases videoOk userOk db _ _ (reply 500 "Failed to like video")
          (reply 200 "Video unliked successfully") rfl (by decide) _ rfl

theorem dislikeFallible_cases (videoOk userOk : Bool) (db : DB) (username : String)
    (id : ObjectId) :
    (videos.dislikeFallible videoOk userOk db username id = videos.dislike db username id ∧
      (videos.dislikeFallible videoOk userOk db username id).1.status ≠ 500) ∨
    ((videos.dislikeFallible videoOk userOk db username id).1.status = 500 ∧
      ((videoOk = false ∧ (videos.dislikeFallible videoOk userOk db username id).2 = db) ∨
        (videoOk = true ∧ userOk = false ∧
          (videos.dislikeFallible videoOk userOk db username id).2 =
            { users := db.users, videos := (videos.dislike db username id).2.videos }))) := by
  unfold videos.dislikeFallible videos.dislike
  cases hv : findById db.videos id with
  | none => exact Or.inl ⟨rfl, by show (404 : Nat) ≠ 500; decide⟩
  | some video =>
    cases hu : findOne db.users username with
    | none => exact Or.inl ⟨rfl, by show (404 : Nat) ≠ 500; decide⟩
    | some user =>
      simp only []
      split
      · exact videoThenUser_cases videoOk userOk db _ _ (reply 500 "Failed to dislike video")
          (reply 200 "Video disliked successfully") rfl (by decide) _ rfl
      · exact videoThenUser_cases videoOk userOk db _ _ (reply 500 "Failed to dislike video")
          (reply 200 "Video dislike removed successfully") rfl (by decide) _ rfl

/-- Two awaited writes, the user first: either both land and the success
response is sent, or 500 is sent with nothing written (the first write failed)
or with the user written and the video not (the second write failed). -/
theorem userThenVideo_cases (videoOk userOk : Bool) (db : DB) (V : Video) (U : User)
    (failure success : Response) (hf : failure.status = 500) (hs : success.status ≠ 500)
    (r : Response × DB)
    (hr : r = match trySaveUser userOk db U with
      | none => (failure, db)
      | some db1 =>
        match trySaveVideo videoOk db1 V with
        | none => (failure, db1)
        | some db2 => (success, db2)) :
    (r = (success, saveVideo (saveUser db U) V) ∧ r.1.status ≠ 500) ∨
    (r.1.status = 500 ∧
      ((userOk = false ∧ r.2 = db) ∨
        (userOk = true ∧ videoOk = false ∧
          r.2 = { users := (saveVideo (saveUser db U) V).users, videos := db.videos }))) := by
  subst hr
  cases userOk
  · exact Or.inr ⟨hf, Or.inl ⟨rfl, rfl⟩⟩
  · cases videoOk
    · exact Or.inr ⟨hf, Or.inr ⟨rfl, rfl, rfl⟩⟩
    · exact Or.inl ⟨rfl, hs⟩

theorem likedAddFallible_cases (videoOk userOk : Bool) (db : DB) (username : String)
    (videoId : Option IdString) :
    (likedvideos.addFallible videoOk userOk db username videoId =
        likedvideos.add db username videoId ∧
      (likedvideos.addFallible videoOk userOk db username videoId).1.status ≠ 500) ∨
    ((likedvideos.addFallible videoOk userOk db username videoId).1.status = 500 ∧
      ((userOk = false ∧ (likedvideos.addFallible videoOk userOk db username videoId).2 = db) ∨
        (userOk = true ∧ videoOk = false ∧
          (likedvideos.addFallible videoOk userOk db username videoId).2 =
            { users := (likedvideos.add db username videoId).2.users,
              videos := db.videos }))) := by
  unfold likedvideos.addFallible likedvideos.add
  cases hu : findOne db.users username with
  | none => exact Or.inl ⟨rfl, by show (404 : Nat) ≠ 500; decide⟩
  | some user =>
    cases videoId with
    | none => exact Or.inl ⟨rfl, by show (400 : Nat) ≠ 500; decide⟩
    | some s =>
      cases hv : findById db.videos s.id with
      | none =>
        refine Or.inl ⟨?_, ?_⟩
        · simp only [hv]
        · simp only [hv]
          show (404 : Nat) ≠ 500
          decide
      | some video =>
        simp only [hv]
        split
        · exact Or.inl ⟨rfl, by show (400 : Nat) ≠ 500; decide⟩
        · exact userThenVideo_cases videoOk userOk db _ _
            (reply 500 "Failed to add to liked videos") _ rfl
            (by show (200 : Nat) ≠ 500; decide) _ rfl

theorem dislikedAddFallible_cases (videoOk userOk : Bool) (db : DB) (username : String)
    (videoId : Option IdString) :
    (dislikedvideos.addFallible videoOk userOk db username videoId =
        dislikedvideos.add db username videoId ∧
      (dislikedvideos.addFallible videoOk userOk db username videoId).1.status ≠ 500) ∨
    ((dislikedvideos.addFallible videoOk userOk db username videoId).1.status = 500 ∧
      ((userOk = false ∧
          (dislikedvideos.addFallible videoOk userOk db username videoId).2 = db) ∨
        (userOk = true ∧ videoOk = false ∧
          (dislikedvideos.addFallible videoOk userOk db username videoId).2 =
            { users := (dislikedvideos.add db username videoId).2.users,
              videos := db.videos }))) := by
  unfold dislikedvideos.addFallible dislikedvideos.add
  cases hu : findOne db.users username with
  | none => exact Or.inl ⟨rfl, by show (404 : Nat) ≠ 500; decide⟩
  | some user =>
    cases videoId with
    | none => exact Or.inl ⟨rfl, by show (400 : Nat) ≠ 500; decide⟩
    | some s =>
      cases hv : findById db.videos s.id with
      | none =>
        refine Or.inl ⟨?_, ?_⟩
        · simp only [hv]
        · simp only [hv]
          show (404 : Nat) ≠ 500
          decide
      | some video =>
        simp only [hv]
        split
        · exact Or.inl ⟨rfl, by show (400 : Nat) ≠ 500; decide⟩
        · exact userThenVideo_cases videoOk userOk db _ _
            (reply 500 "Failed to add to disliked videos") _ rfl
            (by show (200 : Nat) ≠ 500; decide) _ rfl

/-- One awaited write of the user: either it lands and the success response is
sent, or 500 is sent with nothing written. -/
theorem userOnly_cases (videoOk userOk : Bool) (db : DB) (U : User)
    (failure success : Response) (hf : failure.status = 500) (hs : success.status ≠ 500)
    (r : Response × DB)
    (hr : r = match trySaveUser userOk db U with
      | none => (failure, db)
      | some db2 => (success, db2)) :
    (r = (success, saveUser db U) ∧ r.1.status ≠ 500) ∨
    (r.1.status = 500 ∧
      ((videoOk = false ∧ r.2 = db) ∨
        (videoOk = true ∧ userOk = false ∧
          r.2 = { users := db.users, videos := (saveUser db U).videos }))) := by
  subst hr
  cases userOk
  · cases videoOk
    · exact Or.inr ⟨hf, Or.inl ⟨rfl, rfl⟩⟩
    · exact Or.inr ⟨hf, Or.inr ⟨rfl, rfl, rfl⟩⟩
  · exact Or.inl ⟨rfl, hs⟩

theorem likedRemoveFallible_cases (videoOk userOk : Bool) (db : DB) (username : String)
    (videoId : IdString) :
    (likedvideos.removeFallible videoOk userOk db username videoId =
        likedvideos.remove db username videoId ∧
      (likedvideos.removeFallible videoOk userOk db username videoId).1.status ≠ 500) ∨
    ((likedvideos.removeFallible videoOk userOk db username videoId).1.status = 500 ∧
      ((videoOk = false ∧
          (likedvideos.removeFallible videoOk userOk db username videoId).2 = db) ∨
        (videoOk = true ∧ userOk = false ∧
          (likedvideos.removeFallible videoOk userOk db username videoId).2 =
            { users := db.users,
              videos := (likedvideos.remove db username videoId).2.videos }))) := by
  unfold likedvideos.removeFallible likedvideos.remove
  cases hu : findOne db.users username with
  | none => exact Or.inl ⟨rfl, by show (404 : Nat) ≠ 500; decide⟩
  | some user =>
    simp only []
    split
    · exact Or.inl ⟨rfl, by show (400 : Nat) ≠ 500; decide⟩
    · cases hv : findById db.videos videoId.id with
      | none =>
        exact userOnly_cases videoOk userOk db _
          (reply 500 "Failed to remove from liked videos") _ rfl
          (by show (200 : Nat) ≠ 500; decide) _ rfl
      | some video =>
        exact videoThenUser_cases videoOk userOk db _ _
          (reply 500 "Failed to remove from liked videos") _ rfl
          (by show (200 : Nat) ≠ 500; decide) _ rfl

theorem dislikedRemoveFallible_cases (videoOk userOk : Bool) (db : DB) (username : String)
    (videoId : IdString) :
    (dislikedvideos.removeFallible videoOk userOk db username videoId =
        dislikedvideos.remove db username videoId ∧
      (dislikedvideos.removeFallible videoOk userOk db username videoId).1.status ≠ 500) ∨
    ((dislikedvideos.removeFallible videoOk userOk db username videoId).1.status = 500 ∧
      ((videoOk = false ∧
          (dislikedvideos.removeFallible videoOk userOk db username videoId).2 = db) ∨
        (videoOk = true ∧ userOk = false ∧
          (dislikedvideos.removeFallible videoOk userOk db username videoId).2 =
            { users := db.users,
              videos := (dislikedvideos.remove db username videoId).2.videos }))) := by
  unfold dislikedvideos.removeFallible dislikedvideos.remove
  cases hu : findOne db.users username with
  | none => exact Or.inl ⟨rfl, by show (404 : Nat) ≠ 500; decide⟩
  | some user =>
    simp only []
    split
    · exact Or.inl ⟨rfl, by show (400 : Nat) ≠ 500; decide⟩
    · cases hv : findById db.videos videoId.id with
      | none =>
        exact userOnly_cases videoOk userOk db _
          (reply 500 "Failed to remove from disliked videos") _ rfl
          (by show (200 : Nat) ≠ 500; decide) _ rfl
      | some video =>
        exact videoThenUser_cases videoOk userOk db _ _
          (reply 500 "Failed to remove from disliked videos") _ rfl
          (by show (200 : Nat) ≠ 500; decide) _ rfl

/-- C25, counterexample. On the fresh store, a like toggle whose `video.save()`
goes through and whose `user.save()` fails answers 500 although the video is
stored with `likes = 1` (it was 0) while the user still holds no liked video;
an add-to-liked whose `user.save()` goes through and whose `video.save()` fails
answers 500 although the user is stored with `likedVideos = [1]` while the video
still has `likes = 0`. -/
theorem failed_write_partially_applied :
    (findById db0.videos 1).map (fun v => v.likes) = some 0 ∧
    (findOne db0.users "u").map (fun u => u.likedVideos) = some [] ∧
    (videos.likeFallible true false db0 "u" 1).1.status = 500 ∧
    (findById (videos.likeFallible true false db0 "u" 1).2.videos 1).map (fun v => v.likes)
      = some 1 ∧
    (findOne (videos.likeFallible true false db0 "u" 1).2.users "u").map
      (fun u => u.likedVideos) = some [] ∧
    (likedvideos.addFallible false true db0 "u" (some (lowerHex 1))).1.status = 500 ∧
    (findOne (likedvideos.addFallible false true db0 "u" (some (lowerHex 1))).2.users "u").map
      (fun u => u.likedVideos) = some [1] ∧
    (findById (likedvideos.addFallible false true db0 "u" (some (lowerHex 1))).2.videos 1).map
      (fun v => v.likes) = some 0 := by
  decide

/-- C25, amended. With writes that may fail, each of the six operations that
write the user and the video (like toggle, dislike toggle, liked and disliked
Add, liked and disliked Remove) behaves in one of three ways.  Either it does not
answer 500 and is then exactly the operation without failures.  Or it answers
500 because the write made first failed, and the store is exactly as before.  Or
it answers 500 because the write made first landed and the second failed, and
the store then holds the first document as the operation without failures writes
it and the second collection as before: the videos of the successful run beside
the old users for the toggles and for Remove (which write the video first), the
users of the successful run beside the old videos for Add (which writes the user
first). -/
theorem failed_write_contract (videoOk userOk : Bool) (db : DB) (username : String)
    (id : ObjectId) (videoId : IdString) (body : Option IdString) :
    ((videos.likeFallible videoOk userOk db username id = videos.like db username id ∧
        (videos.likeFallible videoOk userOk db username id).1.status ≠ 500) ∨
      ((videos.likeFallible videoOk userOk db username id).1.status = 500 ∧
        ((videoOk = false ∧ (videos.likeFallible videoOk userOk db username id).2 = db) ∨
          (videoOk = true ∧ userOk = false ∧
            (videos.likeFallible videoOk userOk db username id).2 =
              { users := db.users, videos := (videos.like db username id).2.videos })))) ∧
    ((videos.dislikeFallible videoOk userOk db username id = videos.dislike db username id ∧
        (videos.dislikeFallible videoOk userOk db username id).1.status ≠ 500) ∨
      ((videos.dislikeFallible videoOk userOk db username id).1.status = 500 ∧
        ((videoOk = false ∧ (videos.dislikeFallible videoOk userOk db username id).2 = db) ∨
          (videoOk = true ∧ userOk = false ∧
            (videos.dislikeFallible videoOk userOk db username id).2 =
              { users := db.users,
                videos := (videos.dislike db username id).2.videos })))) ∧
    ((likedvideos.addFallible videoOk userOk db username body =
          likedvideos.add db username body ∧
        (likedvideos.addFallible videoOk userOk db username body).1.status ≠ 500) ∨
      ((likedvideos.addFallible videoOk userOk db username body).1.status = 500 ∧
        ((userOk = false ∧ (likedvideos.addFallible videoOk userOk db username body).2 = db) ∨
          (userOk = true ∧ videoOk = false ∧
            (likedvideos.addFallible videoOk userOk db username body).2 =
              { users := (likedvideos.add db username body).2.users,
                videos := db.videos })))) ∧
    ((dislikedvideos.addFallible videoOk userOk db username body =
          dislikedvideos.add db username body ∧
        (dislikedvideos.addFallible videoOk userOk db username body).1.status ≠ 500) ∨
      ((dislikedvideos.addFallible videoOk userOk db username body).1.status = 500 ∧
        ((userOk = false ∧
            (dislikedvideos.addFallible videoOk userOk db username body).2 = db) ∨
          (userOk = true ∧ videoOk = false ∧
            (dislikedvideos.addFallible videoOk userOk db username body).2 =
              { users := (dislikedvideos.add db username body).2.users,
                videos := db.videos })))) ∧
    ((likedvideos.removeFallible videoOk userOk db username videoId =
          likedvideos.remove db username videoId ∧
        (likedvideos.removeFallible videoOk userOk db username videoId).1.status ≠ 500) ∨
      ((likedvideos.removeFallible videoOk userOk db username videoId).1.status = 500 ∧
        ((videoOk = false ∧
            (likedvideos.removeFallible videoOk userOk db username videoId).2 = db) ∨
          (videoOk = true ∧ userOk = false ∧
            (likedvideos.removeFallible videoOk userOk db username videoId).2 =
              { users := db.users,
                videos := (likedvideos.remove db username videoId).2.videos })))) ∧
    ((dislikedvideos.removeFallible videoOk userOk db username videoId =
          dislikedvideos.remove db username videoId ∧
        (dislikedvideos.removeFallible videoOk userOk db username videoId).1.status ≠ 500) ∨
      ((dislikedvideos.removeFallible videoOk userOk db username videoId).1.status = 500 ∧
        ((videoOk = false ∧
            (dislikedvideos.removeFallible videoOk userOk db username videoId).2 = db) ∨
          (videoOk = true ∧ userOk = false ∧
            (dislikedvideos.removeFallible videoOk userOk db username videoId).2 =
              { users := db.users,
                videos := (dislikedvideos.remove db username videoId).2.videos })))) :=
  ⟨likeFallible_cases videoOk userOk db username id,
    dislikeFallible_cases videoOk userOk db username id,
    likedAddFallible_cases videoOk userOk db username body,
    dislikedAddFallible_cases videoOk userOk db username body,
    likedRemoveFallible_cases videoOk userOk db username videoId,
    dislikedRemoveFallible_cases videoOk userOk db username videoId⟩

/-! ## C30: a record request without a video id -/

/-- C30. A record request without a video id is stored: on the fresh store,
`POST /` with a body that carries no `videoId` answers 200 and stores an entry
without video, and so does `PATCH /` with a `video` object that has no `_id`;
after either, a record request for video `1` (POST or PATCH) and a
remove-entry request for video `1` answer 500 and change nothing, while clear
still answers 200. -/
theorem record_without_video_poisons_history :
    (history.record db0 "u" none 5).1.status = 200 ∧
    (findOne (history.record db0 "u" none 5).2.users "u").map (fun u => u.history)
      = some [{ video := none, watchedAt := 5 }] ∧
    (history.recordPatch db0 "u" (some none) 5).1.status = 200 ∧
    (findOne (history.recordPatch db0 "u" (some none) 5).2.users "u").map
      (fun u => u.history) = some [{ video := none, watchedAt := 5 }] ∧
    history.record (history.record db0 "u" none 5).2 "u" (some (lowerHex 1)) 6
      = (reply 500 "Failed to update history", (history.record db0 "u" none 5).2) ∧
    history.recordPatch (history.record db0 "u" none 5).2 "u" (some (some (lowerHex 1))) 6
      = (reply 500 "Failed to update history", (history.record db0 "u" none 5).2) ∧
    history.remove (history.record db0 "u" none 5).2 "u" (lowerHex 1)
      = (reply 500 "Failed to remove from history", (history.record db0 "u" none 5).2) ∧
    (history.clear (history.record db0 "u" none 5).2 "u").1.status = 200 := by
  decide

/-! ## C26: who may update or delete a comment -/

theorem authorOrUploader_iff (user : User) (comment : Comment) (video : Video) :
    (!(comment.user == user._id) &&
      !(match video.uploadedBy with
        | some uploadedBy => user._id == uploadedBy
        | none => false)) = !authorOrUploader user comment video := by
  unfold authorOrUploader
  cases h : video.uploadedBy with
  | none => simp
  | some w =>
    have e : (w == user._id) = (user._id == w) := by
      by_cases h2 : user._id = w
      · rw [h2]
      · have h3 : ¬ w = user._id := fun e => h2 e.symm
        simp [h2, h3]
    simp [e]

theorem deleteComment_eq {db : DB} {username : String} {videoId : ObjectId}
    {commentId : IdString} {video : Video} {comment : Comment} {user : User}
    (hv : findById db.videos videoId = some video)
    (hc : findComment video.comments commentId.id = some comment)
    (hu : findOne db.users username = some user) :
    videos.deleteComment db username videoId commentId =
      if authorOrUploader user comment video = true then
        (reply 200 "", saveVideo db
          { video with
            comments := video.comments.filter (fun c => !(commentId.isStringOf c._id)) })
      else (reply 403 "Not authorized to delete this comment", db) := by
  unfold videos.deleteComment
  rw [hv]
  simp only [hc, hu, authorOrUploader_iff]
  cases authorOrUploader user comment video <;> rfl

theorem updateComment_eq {db : DB} {username : String} {videoId commentId : ObjectId}
    {video : Video} {comment : Comment} {user : User} (text : String)
    (hv : findById db.videos videoId = some video)
    (hc : findComment video.comments commentId = some comment)
    (hu : findOne db.users username = some user) :
    videos.updateComment db username videoId commentId (some text) =
      if hasText (some text) = true then
        if authorOrUploader user comment video = true then
          (reply 200 "", saveVideo db
            { video with
              comments := setComment video.comments commentId { comment with text := text } })
        else (reply 403 "Not authorized to update this comment", db)
      else (reply 400 "Comment text is required", db) := by
  unfold videos.updateComment hasText
  cases ht : (text == "" || trim text == "")
  · simp only [ht, Bool.false_eq_true, if_false, Bool.not_false, if_true]
    rw [hv]
    simp only [hc, hu, authorOrUploader_iff]
    cases authorOrUploader user comment video <;> rfl
  · simp only [ht, if_true, Bool.not_true, Bool.false_eq_true, if_false]

theorem updateComment_of_no_text (db : DB) (username : String) (videoId commentId : ObjectId)
    (text : Option String) (ht : hasText text = false) :
    videos.updateComment db username videoId commentId text =
      (reply 400 "Comment text is required", db) := by
  unfold videos.updateComment
  cases text with
  | none => rfl
  | some text =>
    unfold hasText at ht
    simp only [Bool.not_eq_false'] at ht
    simp only [ht, if_true]

theorem setComment_split {comments : List Comment} {commentId : ObjectId} {comment : Comment}
    (h : findComment comments commentId = some comment) :
    ∃ pre post, comments = pre ++ comment :: post ∧ (∀ c ∈ pre, c._id ≠ commentId) ∧
      ∀ comment1, setComment comments commentId comment1 = pre ++ comment1 :: post := by
  induction comments with
  | nil => cases h
  | cons c cs ih =>
    unfold findComment at h ih
    rw [find?_cons_ite] at h
    by_cases hid : (c._id == commentId) = true
    · rw [if_pos hid] at h
      cases h
      refine ⟨[], cs, rfl, fun _ hx => absurd hx (List.not_mem_nil _), fun comment1 => ?_⟩
      rw [setComment, if_pos hid]
      rfl
    · rw [if_neg hid] at h
      obtain ⟨pre, post, e, hpre, hset⟩ := ih h
      refine ⟨c :: pre, post, by rw [e]; rfl, ?_, fun comment1 => ?_⟩
      · intro x hx
        rcases List.mem_cons.mp hx with rfl | hx
        · simpa using hid
        · exact hpre x hx
      · rw [setComment, if_neg hid, hset comment1]
        rfl

theorem findComment_some {comments : List Comment} {commentId : ObjectId} {comment : Comment}
    (h : findComment comments commentId = some comment) :
    comment ∈ comments ∧ comment._id = commentId := by
  unfold findComment at h
  exact ⟨List.mem_of_find?_eq_some h, by simpa using List.find?_some h⟩

theorem filter_id_eq_erase {comments : List Comment} {commentId : ObjectId}
    {comment : Comment} (h : findComment comments commentId = some comment)
    (hn : (comments.map (fun c => c._id)).Nodup) :
    comments.filter (fun c => c._id != commentId) = comments.erase comment := by
  obtain ⟨hm, hid⟩ := findComment_some h
  have hnd : comments.Nodup := List.Nodup.of_map _ hn
  rw [List.Nodup.erase_eq_filter hnd]
  apply List.filter_congr
  intro c hc
  by_cases e : c = comment
  · subst e
    rw [hid, bne_self_eq_false, bne_self_eq_false]
  · have : c._id ≠ commentId := by
      intro he
      exact e (List.inj_on_of_nodup_map hn hc hm (he.trans hid.symm))
    have h1 : (c._id != commentId) = true := by simpa using this
    have h2 : (c != comment) = true := by simpa using e
    rw [h1, h2]

/-- C26, counterexample. In `dbComments` the user `"s"` is neither the author of
comment `10` nor the uploader of video `1`; its update request without a text,
or with a whitespace-only text, is answered 400 and not 403. -/
theorem unauthorized_update_without_text :
    (findById dbComments.videos 1).map (fun v => v.uploadedBy) = some (some 8) ∧
    ((findById dbComments.videos 1).bind (fun v => findComment v.comments 10)).map
      (fun c => c.user) = some 7 ∧
    (findOne dbComments.users "s").map (fun u => u._id) = some 5 ∧
    videos.updateComment dbComments "s" 1 10 none =
      (reply 400 "Comment text is required", dbComments) ∧
    videos.updateComment dbComments "s" 1 10 (some "  ") =
      (reply 400 "Comment text is required", dbComments) ∧
    (videos.updateComment dbComments "s" 1 10 (some "edited")).1.status = 403 := by
  decide

/-- The filter of the delete route, for a comment id spelled as stored. -/
theorem filter_isStringOf_canonical (comments : List Comment) (commentId : IdString)
    (hcan : commentId.canonical = true) :
    comments.filter (fun c => !(commentId.isStringOf c._id)) =
      comments.filter (fun c => c._id != commentId.id) := by
  apply List.filter_congr
  intro c _
  unfold IdString.isStringOf
  rw [hcan]
  rfl

/-- C26, amended. For an existing video, comment and user: when the user is
neither the comment's author nor the video's uploader, delete answers 403 and
update leaves the store as it is, answering 403 when the request carries a
non-blank text and 400 when it carries none; when the user is the author or the
uploader, update with a non-blank text answers 200 and stores the comments with
only the text of that comment replaced, update without one answers 400 and
changes nothing, and delete answers 200 and, for a comment id spelled as it is
stored, stores the comments whose id is not the given one, in their order, which
is the list with exactly that comment erased when comment ids are unique. -/
theorem comment_authorization (db : DB) (username : String) (videoId : ObjectId)
    (commentId : IdString) (video : Video) (comment : Comment) (user : User)
    (text : Option String)
    (hv : findById db.videos videoId = some video)
    (hc : findComment video.comments commentId.id = some comment)
    (hu : findOne db.users username = some user) :
    (authorOrUploader user comment video = false →
      videos.deleteComment db username videoId commentId =
        (reply 403 "Not authorized to delete this comment", db) ∧
      (videos.updateComment db username videoId commentId.id text).2 = db ∧
      (hasText text = true →
        (videos.updateComment db username videoId commentId.id text).1.status = 403) ∧
      (hasText text = false →
        (videos.updateComment db username videoId commentId.id text).1.status = 400)) ∧
    (authorOrUploader user comment video = true →
      (∃ pre post, video.comments = pre ++ comment :: post ∧
        (∀ c ∈ pre, c._id ≠ commentId.id) ∧
        ∀ t, hasText (some t) = true →
          (videos.updateComment db username videoId commentId.id (some t)).1.status = 200 ∧
          findById (videos.updateComment db username videoId commentId.id (some t)).2.videos
            videoId =
            some { video with comments := pre ++ { comment with text := t } :: post } ∧
          (videos.updateComment db username videoId commentId.id (some t)).2.users
            = db.users) ∧
      (hasText text = false →
        videos.updateComment db username videoId commentId.id text =
          (reply 400 "Comment text is required", db)) ∧
      (videos.deleteComment db username videoId commentId).1.status = 200 ∧
      (videos.deleteComment db username videoId commentId).2.users = db.users ∧
      (commentId.canonical = true →
        findById (videos.deleteComment db username videoId commentId).2.videos videoId =
          some { video with
                 comments := video.comments.filter (fun c => c._id != commentId.id) } ∧
        ((video.comments.map (fun c => c._id)).Nodup →
          video.comments.filter (fun c => c._id != commentId.id)
            = video.comments.erase comment))) := by
  have hvid := (findById_some hv).2
  constructor
  · intro ha
    refine ⟨?_, ?_, ?_, ?_⟩
    · rw [deleteComment_eq hv hc hu, ha]
      rfl
    · cases text with
      | none => rfl
      | some t =>
        rw [updateComment_eq t hv hc hu, ha]
        cases hasText (some t) <;> rfl
    · intro ht
      cases text with
      | none => cases ht
      | some t =>
        rw [updateComment_eq t hv hc hu, ha, ht]
        rfl
    · intro ht
      rw [updateComment_of_no_text db username videoId commentId.id text ht]
      rfl
  · intro ha
    obtain ⟨pre, post, e, hpre, hset⟩ := setComment_split hc
    refine ⟨⟨pre, post, e, hpre, ?_⟩, ?_, ?_, ?_, ?_⟩
    · intro t ht
      rw [updateComment_eq t hv hc hu, ha, ht, hset]
      exact ⟨rfl, findById_saveVideo hv hvid, rfl⟩
    · exact updateComment_of_no_text db username videoId commentId.id text
    · rw [deleteComment_eq hv hc hu, ha]
      rfl
    · rw [deleteComment_eq hv hc hu, ha]
      rfl
    · intro hcan
      refine ⟨?_, filter_id_eq_erase hc⟩
      rw [deleteComment_eq hv hc hu, ha, filter_isStringOf_canonical _ _ hcan]
      exact findById_saveVideo hv hvid

/-- Witness of C26 (amended): in `dbComments` the user `"s"` may not delete
comment `10` of video `1`, and the uploader `"up"` deletes it. -/
theorem comment_authorization_witness :
    videos.deleteComment dbComments "s" 1 (lowerHex 10) =
      (reply 403 "Not authorized to delete this comment", dbComments) ∧
    (videos.deleteComment dbComments "up" 1 (lowerHex 10)).1.status = 200 ∧
    (findById (videos.deleteComment dbComments "up" 1 (lowerHex 10)).2.videos 1).map
      (fun v => v.comments.map (fun c => c._id)) = some [11] :=
  ⟨((comment_authorization dbComments "s" 1 (lowerHex 10)
      { _id := 1, likes := 0, dislikes := 0, uploadedBy := some 8, views := 0,
        comments := [{ _id := 10, text := "first", user := 7, username := "u",
                       createdAt := 1, isUploader := false },
                     { _id := 11, text := "second", user := 9, username := "w",
                       createdAt := 2, isUploader := false }] }
      { _id := 10, text := "first", user := 7, username := "u", createdAt := 1,
        isUploader := false }
      { _id := 5, username := "s", playlists := [], likedVideos := [],
        dislikedVideos := [], watchLater := [], history := [] }
      none (by decide) (by decide) (by decide)).1 (by decide)).1,
    by decide, by decide⟩


/-- The delete route with the comment id spelled `...0A`: the author's request
for comment `10` is answered 200 and no comment is removed. -/
theorem respelled_delete_comment_removes_nothing :
    (videos.deleteComment dbComments "u" 1 (upperHex 10)).1.status = 200 ∧
    (findById (videos.deleteComment dbComments "u" 1 (upperHex 10)).2.videos 1).map
      (fun v => v.comments.map (fun c => c._id)) = some [10, 11] ∧
    (findById (videos.deleteComment dbComments "u" 1 (lowerHex 10)).2.videos 1).map
      (fun v => v.comments.map (fun c => c._id)) = some [11] := by
  decide

end FypBackend
